import Mathlib

/-! The open/close upcall handlers of the NFSv4.1 client daemon (daemon/open.c)

A shallow embedding of `daemon/open.c`: the disposition resolver, the
lookup-only decision, the execute-access check, the open orchestrator with
its symlink reparse loop, and the close and cancel handlers.

Conventions of the embedding:
* a C `int` status is an `Int`; `ULONG`, `uint32_t` and `DWORD` values are `Nat`;
* out-parameters become fields of the record a function returns;
* every remote call is answered by the environment `Env`: a script that gives
  the answer of the k-th call of each collaborator, so that a statement over
  all environments is a statement over all sequences of collaborator answers;
* the handlers log the remote calls they issue and every release of the
  open state in a trace (`List Event`), in program order.
-/

namespace Nfs41Open

/-! ## Constants (Windows SDK and NFSv4.1 protocol headers) -/

/-- Windows status `NO_ERROR` (winerror.h). -/
def NO_ERROR : Nat := 0
/-- Windows status `ERROR_FILE_NOT_FOUND` (winerror.h). -/
def ERROR_FILE_NOT_FOUND : Nat := 2
/-- Windows status `ERROR_ACCESS_DENIED` (winerror.h). -/
def ERROR_ACCESS_DENIED : Nat := 5
/-- Windows status `ERROR_FILE_EXISTS` (winerror.h). -/
def ERROR_FILE_EXISTS : Nat := 80
/-- Windows status `ERROR_BUFFER_OVERFLOW` (winerror.h). -/
def ERROR_BUFFER_OVERFLOW : Nat := 111
/-- Windows status `ERROR_REPARSE` (winerror.h). -/
def ERROR_REPARSE : Nat := 741
/-- Windows status `ERROR_TOO_MANY_LINKS` (winerror.h). -/
def ERROR_TOO_MANY_LINKS : Nat := 1142
/-- Windows status `ERROR_INTERNAL_ERROR` (winerror.h). -/
def ERROR_INTERNAL_ERROR : Nat := 1359

/-- NFSv4.1 status `NFS4_OK` (RFC 5661). -/
def NFS4_OK : Nat := 0
/-- NFSv4.1 status `NFS4ERR_NOENT` (RFC 5661). -/
def NFS4ERR_NOENT : Nat := 2

/-- Node type `NF4REG` (RFC 5661, nfs_ftype4). -/
def NF4REG : Nat := 1
/-- Node type `NF4DIR` (RFC 5661, nfs_ftype4). -/
def NF4DIR : Nat := 2
/-- Node type `NF4LNK` (RFC 5661, nfs_ftype4). -/
def NF4LNK : Nat := 5

/-- Open flag `OPEN4_NOCREATE` (RFC 5661, opentype4). -/
def OPEN4_NOCREATE : Nat := 0
/-- Open flag `OPEN4_CREATE` (RFC 5661, opentype4). -/
def OPEN4_CREATE : Nat := 1

/-- Access bit `ACCESS4_READ` (RFC 5661). -/
def ACCESS4_READ : Nat := 0x01
/-- Access bit `ACCESS4_EXECUTE` (RFC 5661). -/
def ACCESS4_EXECUTE : Nat := 0x20

/-- Creation disposition `FILE_SUPERSEDE` (ntifs.h). -/
def FILE_SUPERSEDE : Nat := 0
/-- Creation disposition `FILE_OPEN` (ntifs.h). -/
def FILE_OPEN : Nat := 1
/-- Creation disposition `FILE_CREATE` (ntifs.h). -/
def FILE_CREATE : Nat := 2
/-- Creation disposition `FILE_OPEN_IF` (ntifs.h). -/
def FILE_OPEN_IF : Nat := 3
/-- Creation disposition `FILE_OVERWRITE` (ntifs.h). -/
def FILE_OVERWRITE : Nat := 4
/-- Creation disposition `FILE_OVERWRITE_IF` (ntifs.h). -/
def FILE_OVERWRITE_IF : Nat := 5

/-- Create option `FILE_DIRECTORY_FILE` (ntifs.h). -/
def FILE_DIRECTORY_FILE : Nat := 0x00000001
/-- Create option `FILE_NON_DIRECTORY_FILE` (ntifs.h). -/
def FILE_NON_DIRECTORY_FILE : Nat := 0x00000040
/-- Create option `FILE_OPEN_REPARSE_POINT` (ntifs.h). -/
def FILE_OPEN_REPARSE_POINT : Nat := 0x00200000

/-- Access right `FILE_READ_DATA` (winnt.h). -/
def FILE_READ_DATA : Nat := 0x0001
/-- Access right `FILE_WRITE_DATA` (winnt.h). -/
def FILE_WRITE_DATA : Nat := 0x0002
/-- Access right `FILE_APPEND_DATA` (winnt.h). -/
def FILE_APPEND_DATA : Nat := 0x0004
/-- Access right `FILE_EXECUTE` (winnt.h). -/
def FILE_EXECUTE : Nat := 0x0020
/-- Access right `FILE_WRITE_ATTRIBUTES` (winnt.h). -/
def FILE_WRITE_ATTRIBUTES : Nat := 0x0100
/-- Access right `DELETE` (winnt.h). -/
def DELETE : Nat := 0x00010000
/-- Access right `SYNCHRONIZE` (winnt.h). -/
def SYNCHRONIZE : Nat := 0x00100000

/-! ## The disposition resolver and its companions (open.c, lines 122-213) -/

/-- The function `do_lookup` (lines 122-143): whether the open is served by the lookup
alone, without a remote create or open. -/
def do_lookup (type access_mask disposition : Nat) : Bool :=
  if type = NF4DIR then
    if disposition = FILE_OPEN ∨ disposition = FILE_OVERWRITE then
      true
    else
      false
  else if access_mask &&& FILE_READ_DATA ≠ 0 ∨
      access_mask &&& FILE_WRITE_DATA ≠ 0 ∨
      access_mask &&& FILE_APPEND_DATA ≠ 0 ∨
      access_mask &&& FILE_EXECUTE ≠ 0 then
    false
  else
    true

/-- What `map_disposition_2_nfsopen` leaves behind: its return value and the
two cells `*create` and `*last_error` it may have written. -/
structure DispositionResult where
  status : Int
  create : Nat
  last_error : Nat
  deriving DecidableEq, Repr

/-- The function `map_disposition_2_nfsopen` (lines 145-188). `create` and `last_error`
are the incoming contents of the two out-cells; a branch that does not
write a cell leaves its incoming value. -/
def map_disposition_2_nfsopen (disposition : Nat) (in_status : Int)
    (create last_error : Nat) : DispositionResult :=
  if disposition = FILE_SUPERSEDE then
    if in_status = NFS4ERR_NOENT then
      ⟨NO_ERROR, OPEN4_CREATE, ERROR_FILE_NOT_FOUND⟩
    else
      ⟨NO_ERROR, OPEN4_NOCREATE, last_error⟩
  else if disposition = FILE_CREATE then
    if in_status = 0 then
      ⟨ERROR_FILE_EXISTS, create, last_error⟩
    else
      ⟨NO_ERROR, OPEN4_CREATE, last_error⟩
  else if disposition = FILE_OPEN then
    if in_status = NFS4ERR_NOENT then
      ⟨ERROR_FILE_NOT_FOUND, create, last_error⟩
    else
      ⟨NO_ERROR, OPEN4_NOCREATE, last_error⟩
  else if disposition = FILE_OPEN_IF then
    if in_status = NFS4ERR_NOENT then
      ⟨NO_ERROR, OPEN4_CREATE, ERROR_FILE_NOT_FOUND⟩
    else
      ⟨NO_ERROR, OPEN4_NOCREATE, last_error⟩
  else if disposition = FILE_OVERWRITE then
    ⟨if in_status = NFS4ERR_NOENT then ERROR_FILE_NOT_FOUND else NO_ERROR,
      OPEN4_CREATE, last_error⟩
  else if disposition = FILE_OVERWRITE_IF then
    ⟨NO_ERROR, OPEN4_CREATE,
      if in_status = NFS4ERR_NOENT then ERROR_FILE_NOT_FOUND else last_error⟩
  else
    ⟨NO_ERROR, create, last_error⟩

/-- The answer of the remote ACCESS query `nfs41_access`: its status and the
two bit masks it writes. -/
structure AccessAnswer where
  status : Int
  supported : Nat
  access : Nat
  deriving DecidableEq, Repr

/-- The function `check_execute_access` (lines 190-213), as a function of the answer of
the `nfs41_access` call it makes. -/
def check_execute_access (a : AccessAnswer) : Int :=
  if a.status ≠ 0 then
    ERROR_ACCESS_DENIED
  else if a.supported &&& ACCESS4_EXECUTE = 0 then
    if a.supported &&& ACCESS4_READ = 0 ∨ a.access &&& ACCESS4_READ = 0 then
      ERROR_ACCESS_DENIED
    else
      a.status
  else if a.access &&& ACCESS4_EXECUTE = 0 then
    ERROR_ACCESS_DENIED
  else
    a.status

/-! ## Data model (declared in headers outside open.c; the fields open.c uses) -/

/-- An absolute path `nfs41_abs_path`: the bytes of the string and the
16-bit length kept beside it (the lock is not modelled). -/
structure nfs41_abs_path where
  path : List Nat
  len : Nat
  deriving DecidableEq, Repr

/-- A path component `nfs41_component`. -/
structure nfs41_component where
  name : List Nat
  len : Nat
  deriving DecidableEq, Repr

/-- A file handle `nfs41_fh`. -/
structure nfs41_fh where
  fh : List Nat
  len : Nat
  superblock : Nat
  deriving DecidableEq, Repr

/-- A name with its file handle, `nfs41_path_fh`. -/
structure nfs41_path_fh where
  name : nfs41_component
  fh : nfs41_fh
  deriving DecidableEq, Repr

/-- The open owner `open_owner4`. -/
structure open_owner4 where
  owner : List Nat
  owner_len : Nat
  deriving DecidableEq, Repr

/-- The attributes a lookup or open returns, `nfs41_file_info`. -/
structure nfs41_file_info where
  type : Nat
  mode : Nat
  change : Nat
  size : Nat
  numlinks : Nat
  symlink_dir : Bool
  deriving DecidableEq, Repr

/-- The per-open state `nfs41_open_state`. -/
structure nfs41_open_state where
  path : nfs41_abs_path
  parent : nfs41_path_fh
  file : nfs41_path_fh
  owner : open_owner4
  type : Nat
  session : Nat
  do_close : Bool
  deriving DecidableEq, Repr

/-- Windows `FILE_BASIC_INFO`. -/
structure FILE_BASIC_INFO where
  CreationTime : Nat
  LastAccessTime : Nat
  LastWriteTime : Nat
  ChangeTime : Nat
  FileAttributes : Nat
  deriving DecidableEq, Repr

/-- Windows `FILE_STANDARD_INFO`. -/
structure FILE_STANDARD_INFO where
  AllocationSize : Nat
  EndOfFile : Nat
  NumberOfLinks : Nat
  DeletePending : Nat
  Directory : Nat
  deriving DecidableEq, Repr

/-- The arguments of an open upcall, `open_upcall_args`: the decoded request
fields followed by the reply fields. `state` is `none` while no open state
is attached. -/
structure open_upcall_args where
  path : List Nat
  access_mask : Nat
  access_mode : Nat
  file_attrs : Nat
  create_opts : Nat
  disposition : Nat
  root : Nat
  open_owner_id : Nat
  mode : Nat
  basic_info : FILE_BASIC_INFO
  std_info : FILE_STANDARD_INFO
  state : Option nfs41_open_state
  changeattr : Nat
  created : Bool
  symlink : nfs41_abs_path
  symlink_embedded : Bool
  deriving DecidableEq, Repr

/-- The part of `nfs41_upcall` an open uses. -/
structure nfs41_upcall where
  status : Nat
  last_error : Nat
  args : open_upcall_args
  deriving DecidableEq, Repr

/-- The arguments of a close upcall, `close_upcall_args`. `state` is the open
state behind the handle the kernel echoes back. -/
structure close_upcall_args where
  root : Nat
  state : nfs41_open_state
  remove : Bool
  renamed : Bool
  path : List Nat
  deriving DecidableEq, Repr

/-! ## Collaborators -/

/-- What a handler does that is visible outside it, in program order: the
remote calls it issues, the release of the open state (`free`) and the
hand-off of the open state to the caller (`attach`, line 390). -/
inductive Event where
  | nfs41_lookup (path : nfs41_abs_path)
  | nfs41_symlink_target
  | nfs41_symlink_follow
  | nfs41_access
  | nfs41_create (mode : Nat)
  | nfs41_open (allow deny create mode : Nat) (status : Int)
  | nfs41_close
  | nfs41_remove (parent : nfs41_path_fh) (name : nfs41_component)
  | pnfs_open_state_close (remove : Bool)
  | create_silly_rename
  | free
  | attach
  deriving DecidableEq, Repr

/-- Answer of `nfs41_lookup`: its status and what it writes to its
out-parameters. -/
structure LookupAnswer where
  status : Int
  parent : nfs41_path_fh
  file : nfs41_path_fh
  info : nfs41_file_info
  session : Nat

/-- Answer of `nfs41_symlink_target`: its status and the path it writes. -/
structure TargetAnswer where
  status : Int
  target : nfs41_abs_path

/-- Answer of `nfs41_symlink_follow`. -/
structure FollowAnswer where
  status : Int
  info : nfs41_file_info

/-- Answer of `nfs41_create`: its status and the file handle it writes. -/
structure CreateAnswer where
  status : Int
  file : nfs41_path_fh

/-- Answer of `nfs41_open`: its status, the file handle it leaves in the
open state and the attributes it writes. -/
structure OpenAnswer where
  status : Int
  file : nfs41_path_fh
  info : nfs41_file_info

/-- Everything open.c uses and does not define: two limits of
nfs41_const.h, the allocator, the helpers of util.c and the remote calls.
`nfs41_lookup k` answers the k-th lookup of a request (k = 0 is the lookup of
line 236) and `nfs41_symlink_target k` the k-th target fetch; the other
calls are issued at most once per request. -/
structure Env where
  NFS41_MAX_PATH_LEN : Nat
  NFS41_MAX_SYMLINK_DEPTH : Nat
  /-- `none`: calloc succeeds; `some e`: it fails and GetLastError gives `e`. -/
  calloc_error : Option Int
  /-- The component `path_fh_init` derives from the path. -/
  path_fh_init : nfs41_abs_path → nfs41_component
  /-- The component `last_component` finds before the file name. -/
  last_component : nfs41_abs_path → nfs41_component → nfs41_component
  nfs41_lookup : Nat → LookupAnswer
  nfs41_symlink_target : Nat → TargetAnswer
  nfs41_symlink_follow : FollowAnswer
  nfs41_access : AccessAnswer
  nfs41_create : CreateAnswer
  nfs41_open : OpenAnswer
  nfs41_close : Int
  nfs41_remove : Int
  map_access_2_allowdeny : Nat → Nat → Nat × Nat
  nfs_to_basic_info : nfs41_file_info → FILE_BASIC_INFO
  nfs_to_standard_info : nfs41_file_info → FILE_STANDARD_INFO
  nfs_to_windows_error : Int → Int → Int
  create_silly_rename : nfs41_abs_path → nfs41_fh → nfs41_component → nfs41_component

/-! ## The open state (lines 35-80) -/

/-- C `strlen`: the number of bytes before the first NUL. -/
def strlen (s : List Nat) : Nat := (s.takeWhile (· ≠ 0)).length

/-- A zero-filled file handle, as calloc leaves it. -/
def zero_fh : nfs41_fh := ⟨[], 0, 0⟩

/-- Result of `create_open_state`: the status, the state written to
`*state_out` (if any) and the trace. -/
structure CreateStateResult where
  status : Int
  state : Option nfs41_open_state
  trace : List Event

/-- The function `create_open_state` (lines 35-73). -/
def create_open_state (env : Env) (path : List Nat) (open_owner_id : Nat) :
    CreateStateResult :=
  match env.calloc_error with
  | some e => ⟨e, none, []⟩
  | none =>
    if env.NFS41_MAX_PATH_LEN ≤ strlen path then
      ⟨ERROR_BUFFER_OVERFLOW, none, [Event.free]⟩
    else
      let p : nfs41_abs_path := ⟨path.takeWhile (· ≠ 0), strlen path % 2 ^ 16⟩
      let file_name := env.path_fh_init p
      let owner := (Nat.toDigits 10 (open_owner_id % 2 ^ 32)).map Char.toNat
      ⟨NO_ERROR,
        some {
          path := p
          parent := ⟨env.last_component p file_name, zero_fh⟩
          file := ⟨file_name, zero_fh⟩
          owner := ⟨owner, owner.length⟩
          type := 0
          session := 0
          do_close := false },
        []⟩

/-! ## The open orchestrator (lines 215-396) -/

/-- What `handle_open` leaves behind: its return value, the upcall record
after the call and the trace. -/
structure OpenResult where
  status : Int
  upcall : nfs41_upcall
  trace : List Event

/-- The exit through the label `out_free_state` (lines 393-395). -/
def out_free_state (status : Int) (upcall : nfs41_upcall) (trace : List Event) :
    OpenResult :=
  ⟨status, upcall, trace ++ [Event.free]⟩

/-- How the reparse loop ends: with a failure status, or with the state whose
path was rewritten and whose last lookup did not signal a reparse. -/
inductive ReparseOutcome where
  | failed (status : Int) (trace : List Event)
  | resolved (state : nfs41_open_state) (trace : List Event)

/-- The do-while loop of lines 242-260. `depth` is the value of the counter
on entry to an iteration; the iteration that raises it to d fetches target
d - 1 and issues lookup d. -/
def reparse_loop (env : Env) (depth : Nat) (state : nfs41_open_state)
    (trace : List Event) : ReparseOutcome :=
  if h : depth + 1 > env.NFS41_MAX_SYMLINK_DEPTH then
    .failed ERROR_TOO_MANY_LINKS trace
  else
    let t := env.nfs41_symlink_target depth
    let trace := trace ++ [Event.nfs41_symlink_target]
    if t.status ≠ 0 then
      .failed t.status trace
    else
      let state := { state with path := t.target }
      let l := env.nfs41_lookup (depth + 1)
      let trace := trace ++ [Event.nfs41_lookup state.path]
      let state := { state with parent := l.parent, session := l.session }
      if l.status = ERROR_REPARSE then
        reparse_loop env (depth + 1) state trace
      else
        .resolved state trace
termination_by env.NFS41_MAX_SYMLINK_DEPTH + 1 - depth
decreasing_by omega

/-- The hand-off of line 390 and the return through `out`. -/
def attach_state (upcall : nfs41_upcall) (state : nfs41_open_state)
    (trace : List Event) : OpenResult :=
  ⟨NO_ERROR, { upcall with args := { upcall.args with state := some state } },
    trace ++ [Event.attach]⟩

/-- Lines 352-389 of `handle_open`: the create-or-open branch. `status` is
the status of the lookup. -/
def handle_open_create_or_open (env : Env) (upcall : nfs41_upcall)
    (state : nfs41_open_state) (status : Int) (trace : List Event) : OpenResult :=
  let args := upcall.args
  let ad := env.map_access_2_allowdeny args.access_mask args.access_mode
  let m := map_disposition_2_nfsopen args.disposition status 0 upcall.last_error
  let upcall := { upcall with last_error := m.last_error }
  if m.status ≠ 0 then
    out_free_state m.status upcall trace
  else
    let checked := args.access_mask &&& FILE_EXECUTE ≠ 0 ∧ state.file.fh.len ≠ 0
    let trace := if checked then trace ++ [Event.nfs41_access] else trace
    if checked ∧ check_execute_access env.nfs41_access ≠ 0 then
      out_free_state (check_execute_access env.nfs41_access) upcall trace
    else if m.create = OPEN4_CREATE ∧ args.create_opts &&& FILE_DIRECTORY_FILE ≠ 0 then
      let c := env.nfs41_create
      let trace := trace ++ [Event.nfs41_create args.mode]
      let state := { state with file := c.file }
      let args := { args with
        std_info := { args.std_info with Directory := 1 }
        created := decide (c.status = NFS4_OK) }
      let upcall := { upcall with args := args }
      if c.status ≠ 0 then
        out_free_state (env.nfs_to_windows_error c.status ERROR_FILE_NOT_FOUND)
          upcall trace
      else
        attach_state upcall state trace
    else
      let o := env.nfs41_open
      let trace := trace ++ [Event.nfs41_open ad.1 ad.2 m.create args.mode o.status]
      let state := { state with file := o.file }
      if o.status = NFS4_OK then
        let args := { args with
          basic_info := env.nfs_to_basic_info o.info
          std_info := env.nfs_to_standard_info o.info
          mode := o.info.mode }
        attach_state { upcall with args := args } { state with do_close := true } trace
      else
        out_free_state (env.nfs_to_windows_error o.status ERROR_FILE_NOT_FOUND)
          upcall trace

/-- Lines 325-390 of `handle_open`: the deferred create of a symlink, the
lookup-only branch and the create-or-open branch. `status` is the status of
the lookup, 0 or ERROR_FILE_NOT_FOUND here. -/
def handle_open_dispatch (env : Env) (upcall : nfs41_upcall)
    (state : nfs41_open_state) (info : nfs41_file_info) (status : Int)
    (trace : List Event) : OpenResult :=
  let args := upcall.args
  if args.disposition = FILE_CREATE ∧
      args.access_mask = (FILE_WRITE_ATTRIBUTES ||| SYNCHRONIZE ||| DELETE) ∧
      args.access_mode = 0 ∧
      args.create_opts &&& FILE_OPEN_REPARSE_POINT ≠ 0 then
    let m := map_disposition_2_nfsopen args.disposition status 0 upcall.last_error
    let upcall := { upcall with last_error := m.last_error }
    if m.status ≠ 0 then
      out_free_state m.status upcall trace
    else
      let state := { state with
        file := { state.file with
          fh := { state.file.fh with superblock := state.parent.fh.superblock } } }
      attach_state upcall state trace
  else if do_lookup state.type args.access_mask args.disposition then
    if status ≠ 0 then
      out_free_state status upcall trace
    else
      let args := { args with
        basic_info := env.nfs_to_basic_info info
        std_info := env.nfs_to_standard_info info
        mode := info.mode
        changeattr := info.change }
      attach_state { upcall with args := args } state trace
  else
    handle_open_create_or_open env upcall state status trace

/-- Lines 269-313 of `handle_open`: the type of a found entry is checked
against the request, a symlink is reported or probed, and every lookup
failure other than not-found ends the open. `l` is the answer of the first
lookup, already written to `state`. The block of lines 284-287 is under
`#ifdef NOTEPAD_OPEN_FILE_AS_DIRFILE_FIXED`, a name open.c does not define,
and is not compiled. -/
def handle_open_typed (env : Env) (upcall : nfs41_upcall)
    (state : nfs41_open_state) (l : LookupAnswer) (trace : List Event) : OpenResult :=
  let args := upcall.args
  let info := l.info
  if l.status = NO_ERROR then
    if info.type = NF4DIR then
      if args.create_opts &&& FILE_NON_DIRECTORY_FILE ≠ 0 then
        out_free_state ERROR_ACCESS_DENIED upcall trace
      else
        handle_open_dispatch env upcall { state with type := info.type } info l.status trace
    else if info.type = NF4REG then
      handle_open_dispatch env upcall { state with type := info.type } info l.status trace
    else if info.type = NF4LNK then
      if args.create_opts &&& FILE_OPEN_REPARSE_POINT ≠ 0 then
        let f := env.nfs41_symlink_follow
        let trace := trace ++ [Event.nfs41_symlink_follow]
        let info :=
          if f.status = NO_ERROR ∧ f.info.type = NF4DIR then
            { info with symlink_dir := true }
          else info
        handle_open_dispatch env upcall { state with type := info.type } info l.status trace
      else
        let t := env.nfs41_symlink_target 0
        let args := { args with symlink_embedded := false, symlink := t.target }
        out_free_state t.status
          { upcall with last_error := ERROR_REPARSE, args := args }
          (trace ++ [Event.nfs41_symlink_target])
    else
      handle_open_dispatch env upcall { state with type := info.type } info l.status trace
  else if l.status ≠ ERROR_FILE_NOT_FOUND then
    out_free_state l.status upcall trace
  else
    handle_open_dispatch env upcall state info l.status trace

/-- The function `handle_open` (lines 215-396). When `create_open_state` reports success
it has written a state; the `none` case under a zero status (a failed calloc
with a zero GetLastError) has no defined continuation in C and returns at
once here. -/
def handle_open (env : Env) (upcall : nfs41_upcall) : OpenResult :=
  let args := upcall.args
  let c := create_open_state env args.path args.open_owner_id
  if c.status ≠ 0 then
    ⟨c.status, upcall, c.trace⟩
  else
    match c.state with
    | none => ⟨c.status, upcall, c.trace⟩
    | some state =>
      let state := { state with
        type := if args.create_opts &&& FILE_DIRECTORY_FILE ≠ 0 then NF4DIR else NF4REG }
      let l := env.nfs41_lookup 0
      let trace := c.trace ++ [Event.nfs41_lookup state.path]
      let state := { state with parent := l.parent, file := l.file, session := l.session }
      if l.status = ERROR_REPARSE then
        match reparse_loop env 0 state trace with
        | .failed status trace => out_free_state status upcall trace
        | .resolved state trace =>
          let args := { args with symlink := state.path, symlink_embedded := true }
          out_free_state NO_ERROR
            { upcall with last_error := ERROR_REPARSE, args := args } trace
      else
        handle_open_typed env upcall state l trace

/-! ## The reply codec (lines 398-431) -/

/-- The byte sizes `sizeof` gives for the five fixed reply fields; their
types are declared in headers outside open.c. -/
structure ReplySizes where
  basic_info : Nat
  std_info : Nat
  state : Nat
  mode : Nat
  changeattr : Nat
  deriving DecidableEq, Repr

/-- What `marshall_open` puts into the reply buffer, in order. `symlink` is
the call of MultiByteToWideChar on the symlink path, with the byte count and
the output capacity in wide characters it is given. -/
inductive ReplyField where
  | basic_info (v : FILE_BASIC_INFO)
  | std_info (v : FILE_STANDARD_INFO)
  | state (v : Option nfs41_open_state)
  | mode (v : Nat)
  | changeattr (v : Nat)
  | symlink_embedded (v : Bool)
  | len (v : Nat)
  | symlink (path : List Nat) (len : Nat) (capacity : Nat)
  deriving DecidableEq, Repr

/-- Modelled from the spec: the buffer-bounds helper `safe_write` of util.c,
which is not under src. A field that does not fit in the remaining space
fails with ERROR_BUFFER_OVERFLOW and leaves the space as it is (spec 4.1 and
7); otherwise the field is written and the remaining space shrinks by its
size. The result is the status and the remaining space. -/
def safe_write (remaining size : Nat) : Int × Nat :=
  if remaining < size then (ERROR_BUFFER_OVERFLOW, remaining) else (0, remaining - size)

/-- What `marshall_open` leaves behind: its return value, the remaining
space `*length` and the fields written. -/
structure MarshallResult where
  status : Int
  length : Nat
  written : List ReplyField
  deriving DecidableEq, Repr

/-- One `status = safe_write(...)` step of `marshall_open`: the field is
appended when the write succeeds. -/
def write_field (r : MarshallResult) (size : Nat) (field : ReplyField) : MarshallResult :=
  if (safe_write r.length size).1 ≠ 0 then
    ⟨(safe_write r.length size).1, (safe_write r.length size).2, r.written⟩
  else
    ⟨(safe_write r.length size).1, (safe_write r.length size).2, r.written ++ [field]⟩

/-- The function `marshall_open` (lines 398-431). `sizes` gives the sizes of
the fixed fields, `MultiByteToWideChar` the return value of the Win32
conversion (0 on failure), `length` the space in the reply buffer.
sizeof(BOOLEAN) is 1, sizeof(unsigned short) and sizeof(WCHAR) are 2. -/
def marshall_open (sizes : ReplySizes) (MultiByteToWideChar : List Nat → Nat → Nat → Nat)
    (length : Nat) (upcall : nfs41_upcall) : MarshallResult :=
  let args := upcall.args
  let r1 := write_field ⟨0, length, []⟩ sizes.basic_info (.basic_info args.basic_info)
  if r1.status ≠ 0 then r1 else
  let r2 := write_field r1 sizes.std_info (.std_info args.std_info)
  if r2.status ≠ 0 then r2 else
  let r3 := write_field r2 sizes.state (.state args.state)
  if r3.status ≠ 0 then r3 else
  let r4 := write_field r3 sizes.mode (.mode args.mode)
  if r4.status ≠ 0 then r4 else
  let r5 := write_field r4 sizes.changeattr (.changeattr args.changeattr)
  if r5.status ≠ 0 then r5 else
  if upcall.last_error = ERROR_REPARSE then
    let len := ((args.symlink.len + 1) * 2) % 2 ^ 16
    let r6 := write_field r5 1 (.symlink_embedded args.symlink_embedded)
    if r6.status ≠ 0 then r6 else
    let r7 := write_field r6 2 (.len len)
    if r7.status ≠ 0 then r7 else
    if r7.length ≤ len then
      { r7 with status := ERROR_BUFFER_OVERFLOW }
    else if MultiByteToWideChar args.symlink.path args.symlink.len (len / 2) = 0 then
      ⟨ERROR_BUFFER_OVERFLOW, r7.length,
        r7.written ++ [.symlink args.symlink.path args.symlink.len (len / 2)]⟩
    else
      ⟨r7.status, r7.length,
        r7.written ++ [.symlink args.symlink.path args.symlink.len (len / 2)]⟩
  else
    r5

/-! ## Cancel and close (lines 433-533) -/

/-- What `cancel_open` leaves behind: its return value and the trace. -/
structure CancelResult where
  status : Int
  trace : List Event
  deriving DecidableEq, Repr

/-- The function `cancel_open` (lines 433-462). The result is `none` when the C code
reads through `args->state` although no open state is attached, which C
leaves undefined. -/
def cancel_open (env : Env) (upcall : nfs41_upcall) : Option CancelResult :=
  let args := upcall.args
  if upcall.status ≠ 0 then
    some ⟨env.nfs_to_windows_error NFS4_OK ERROR_INTERNAL_ERROR, []⟩
  else
    match args.state with
    | none => none
    | some state =>
      if state.do_close then
        some ⟨env.nfs_to_windows_error env.nfs41_close ERROR_INTERNAL_ERROR,
          [Event.nfs41_close, Event.free]⟩
      else if args.created then
        some ⟨env.nfs_to_windows_error env.nfs41_remove ERROR_INTERNAL_ERROR,
          [Event.nfs41_remove state.parent state.file.name, Event.free]⟩
      else
        some ⟨env.nfs_to_windows_error NFS4_OK ERROR_INTERNAL_ERROR, [Event.free]⟩

/-- What `handle_close` leaves behind: its return value and the trace. -/
structure CloseResult where
  status : Int
  trace : List Event
  deriving DecidableEq, Repr

/-- The function `handle_close` (lines 492-533). -/
def handle_close (env : Env) (args : close_upcall_args) : CloseResult :=
  let state := args.state
  let trace : List Event :=
    if state.type = NF4REG then [Event.pnfs_open_state_close args.remove] else []
  let name :=
    if args.remove ∧ args.renamed then
      env.create_silly_rename state.path state.file.fh state.file.name
    else state.file.name
  let trace :=
    if args.remove then
      (if args.renamed then trace ++ [Event.create_silly_rename] else trace) ++
        [Event.nfs41_remove state.parent name]
    else trace
  let rm_status : Int :=
    if args.remove then
      if env.nfs41_remove ≠ 0 then
        env.nfs_to_windows_error env.nfs41_remove ERROR_INTERNAL_ERROR
      else env.nfs41_remove
    else NFS4_OK
  let trace := if state.do_close then trace ++ [Event.nfs41_close] else trace
  let status : Int :=
    if state.do_close then
      if env.nfs41_close ≠ 0 then
        env.nfs_to_windows_error env.nfs41_close ERROR_INTERNAL_ERROR
      else env.nfs41_close
    else NFS4_OK
  let trace := trace ++ [Event.free]
  ⟨if status ≠ 0 ∨ rm_status = 0 then status else rm_status, trace⟩

/-! ## Observations on traces -/

/-- The number of releases of the open state in a trace. -/
def count_free (trace : List Event) : Nat := trace.count Event.free

/-- Whether an event is a remote lookup. -/
def is_lookup : Event → Bool
  | .nfs41_lookup _ => true
  | _ => false

/-- Whether an event is a remote close. -/
def is_close : Event → Bool
  | .nfs41_close => true
  | _ => false

/-- Whether an event is a remote remove. -/
def is_remove : Event → Bool
  | .nfs41_remove _ _ => true
  | _ => false

/-- Whether an event is a remote directory create. -/
def is_create : Event → Bool
  | .nfs41_create _ => true
  | _ => false

/-- Whether an event is a remote OPEN that returned success. -/
def is_open_ok : Event → Bool
  | .nfs41_open _ _ _ _ status => decide (status = 0)
  | _ => false

/-- The trace at the end of the reparse loop. -/
def ReparseOutcome.trace : ReparseOutcome → List Event
  | .failed _ trace => trace
  | .resolved _ trace => trace

/-- What every stage of `handle_open` after the reparse test guarantees of
its result `r`, given the upcall, the open state and the trace it started
from: it issues no lookup and at most one remote directory create or
successful remote OPEN; and it either releases the state once, hands
nothing off and leaves `args.state` alone, or releases nothing, hands the
state off once with status 0, and the state handed off has do_close set
exactly when it was set before or a remote OPEN succeeded in this stage. -/
def stage_ok (upcall : nfs41_upcall) (state : nfs41_open_state)
    (trace : List Event) (r : OpenResult) : Prop :=
  r.trace.countP is_lookup = trace.countP is_lookup ∧
  r.trace.countP is_open_ok + r.trace.countP is_create ≤
    trace.countP is_open_ok + trace.countP is_create + 1 ∧
  ((r.trace.count Event.free = trace.count Event.free + 1 ∧
      r.trace.count Event.attach = trace.count Event.attach ∧
      r.upcall.args.state = upcall.args.state) ∨
    (r.trace.count Event.free = trace.count Event.free ∧
      r.trace.count Event.attach = trace.count Event.attach + 1 ∧
      r.status = 0 ∧
      ∃ st, r.upcall.args.state = some st ∧
        (st.do_close = true ↔
          state.do_close = true ∨
            trace.countP is_open_ok < r.trace.countP is_open_ok)))

/-- The open state of `handle_open` after the first lookup (line 237): the
type guessed from the directory-file option (lines 230-233) and the parent,
file and session the lookup wrote. -/
def state_after_lookup (env : Env) (upcall : nfs41_upcall)
    (state : nfs41_open_state) : nfs41_open_state :=
  { state with
    type := if upcall.args.create_opts &&& FILE_DIRECTORY_FILE ≠ 0 then NF4DIR else NF4REG
    parent := (env.nfs41_lookup 0).parent
    file := (env.nfs41_lookup 0).file
    session := (env.nfs41_lookup 0).session }

/-- The symlink-creation signature tested at lines 325-328. -/
def symlink_create_signature (args : open_upcall_args) : Prop :=
  args.disposition = FILE_CREATE ∧
    args.access_mask = (FILE_WRITE_ATTRIBUTES ||| SYNCHRONIZE ||| DELETE) ∧
    args.access_mode = 0 ∧
    args.create_opts &&& FILE_OPEN_REPARSE_POINT ≠ 0

/-- Whether a reply field is the converted symlink target, that is, whether
MultiByteToWideChar was called. -/
def is_symlink_field : ReplyField → Bool
  | .symlink _ _ _ => true
  | _ => false

/-! ## Sample inputs -/

/-- A sample path, the bytes of "/a". -/
def sample_path : List Nat := [47, 97]

/-- A sample file info of the given node type. -/
def sample_info (type : Nat) : nfs41_file_info := ⟨type, 0o644, 7, 10, 1, false⟩

/-- A sample name with handle. -/
def sample_path_fh (len : Nat) : nfs41_path_fh := ⟨⟨[97], 1⟩, ⟨[1, 2, 3], len, 9⟩⟩

/-- The error translator of the samples: success stays success, every
failure becomes the default error. -/
def sample_translate (status default_error : Int) : Int :=
  if status = 0 then 0 else default_error

/-- A sample environment with limits 1280 and 8, in which every lookup
answers `lookup_status` with an entry of type `type`, every other remote
call succeeds and the ACCESS query answers `access`. -/
def sample_env (lookup_status : Int) (type : Nat) (access : AccessAnswer) : Env where
  NFS41_MAX_PATH_LEN := 1280
  NFS41_MAX_SYMLINK_DEPTH := 8
  calloc_error := none
  path_fh_init := fun p => ⟨p.path.drop 1, p.len - 1⟩
  last_component := fun _ _ => ⟨[], 0⟩
  nfs41_lookup := fun _ =>
    if lookup_status = 0 then
      ⟨lookup_status, sample_path_fh 3, sample_path_fh 3, sample_info type, 1⟩
    else
      ⟨lookup_status, sample_path_fh 3, ⟨⟨[97], 1⟩, zero_fh⟩, ⟨0, 0, 0, 0, 0, false⟩, 1⟩
  nfs41_symlink_target := fun _ => ⟨0, ⟨[47, 98], 2⟩⟩
  nfs41_symlink_follow := ⟨0, sample_info NF4REG⟩
  nfs41_access := access
  nfs41_create := ⟨0, sample_path_fh 3⟩
  nfs41_open := ⟨0, sample_path_fh 3, sample_info NF4REG⟩
  nfs41_close := 0
  nfs41_remove := 0
  map_access_2_allowdeny := fun mask _ => (mask &&& 3, 0)
  nfs_to_basic_info := fun i => ⟨0, 0, 0, i.change, 0⟩
  nfs_to_standard_info := fun i => ⟨i.size, i.size, i.numlinks, 0, 0⟩
  nfs_to_windows_error := sample_translate
  create_silly_rename := fun _ _ n => ⟨46 :: n.name, n.len + 1⟩

/-- A sample open request for `sample_path`. -/
def sample_upcall (access_mask create_opts disposition : Nat) : nfs41_upcall where
  status := 0
  last_error := 0
  args := {
    path := sample_path
    access_mask := access_mask
    access_mode := 0
    file_attrs := 0
    create_opts := create_opts
    disposition := disposition
    root := 1
    open_owner_id := 42
    mode := 0o644
    basic_info := ⟨0, 0, 0, 0, 0⟩
    std_info := ⟨0, 0, 0, 0, 0⟩
    state := none
    changeattr := 0
    created := false
    symlink := ⟨[], 0⟩
    symlink_embedded := false }

/-- A sample open state of the given type. -/
def sample_state (type : Nat) (do_close : Bool) : nfs41_open_state where
  path := ⟨sample_path, 2⟩
  parent := sample_path_fh 3
  file := sample_path_fh 3
  owner := ⟨[52, 50], 2⟩
  type := type
  session := 1
  do_close := do_close

/-- The state `create_open_state` builds for `sample_path` and owner 42 in
the sample environment. -/
def sample_built_state : nfs41_open_state where
  path := ⟨sample_path, 2⟩
  parent := ⟨⟨[], 0⟩, zero_fh⟩
  file := ⟨⟨[97], 1⟩, zero_fh⟩
  owner := ⟨[52, 50], 2⟩
  type := 0
  session := 0
  do_close := false

/-- The sample environment with chosen answers of the remote close and the
remote remove. -/
def sample_close_env (close remove : Int) : Env :=
  { sample_env 0 NF4REG ⟨0, 0, 0⟩ with nfs41_close := close, nfs41_remove := remove }

/-- The sample environment in which the lookups 0 .. n-1 signal a reparse,
every later lookup finds a regular file, and the k-th target fetch succeeds
with the path "/" followed by the byte 98 + k. -/
def sample_chain_env (n : Nat) : Env :=
  { sample_env 0 NF4REG ⟨0, 0, 0⟩ with
    nfs41_lookup := fun k =>
      ⟨if k < n then ERROR_REPARSE else 0, sample_path_fh 3, sample_path_fh 3,
        sample_info NF4REG, 1⟩
    nfs41_symlink_target := fun k => ⟨0, ⟨[47, 98 + k], 2⟩⟩ }

/-- The sample chain environment in which the lookup that ends the chain
answers `last` instead of success. -/
def sample_chain_env_last (n : Nat) (last : Int) : Env :=
  { sample_chain_env n with
    nfs41_lookup := fun k =>
      ⟨if k < n then ERROR_REPARSE else last, sample_path_fh 3, sample_path_fh 3,
        sample_info NF4REG, 1⟩ }

/-- The sample environment in which the lookup finds a symlink whose target
fetch answers `target_status`. -/
def sample_symlink_env (target_status : Int) : Env :=
  { sample_env 0 NF4LNK ⟨0, 0, 0⟩ with
    nfs41_symlink_target := fun _ => ⟨target_status, ⟨[47, 98], 2⟩⟩ }

/-- Sample sizes of the fixed reply fields (a 64-bit build). -/
def sample_sizes : ReplySizes := ⟨40, 24, 8, 4, 8⟩

/-- A sample conversion that always succeeds, returning the capacity. -/
def sample_convert (_path : List Nat) (_len capacity : Nat) : Nat := capacity + 1

/-- A sample reply to marshal: the sample request with the given last_error
and a symlink target of `len` bytes. -/
def sample_reply (last_error len : Nat) : nfs41_upcall :=
  { sample_upcall FILE_READ_DATA 0 FILE_OPEN with
    last_error := last_error
    args := { (sample_upcall FILE_READ_DATA 0 FILE_OPEN).args with
      symlink := ⟨List.replicate len 97, len⟩, symlink_embedded := true } }

/-- A sample close request on a regular file. -/
def sample_close_args (do_close remove renamed : Bool) : close_upcall_args :=
  ⟨1, sample_state NF4REG do_close, remove, renamed, sample_path⟩

/-- A sample cancel request: the upcall of a finished open with the given
status, attached state and created flag. -/
def sample_cancel_upcall (status : Nat) (state : Option nfs41_open_state)
    (created : Bool) : nfs41_upcall :=
  { sample_upcall FILE_READ_DATA 0 FILE_CREATE with
    status := status
    args := { (sample_upcall FILE_READ_DATA 0 FILE_CREATE).args with
      state := state, created := created } }

/-! ## The disposition table -/

/-- C1: for the six dispositions and the two lookup results (found = status
0, not found = NFS4ERR_NOENT), `map_disposition_2_nfsopen` returns
ERROR_FILE_EXISTS for (CREATE, found), ERROR_FILE_NOT_FOUND for (OPEN, not
found) and (OVERWRITE, not found), and NO_ERROR for the other nine
combinations, whatever the two out-cells held. -/
theorem map_disposition_hard_error (create last_error : Nat) :
    (map_disposition_2_nfsopen FILE_SUPERSEDE 0 create last_error).status = NO_ERROR ∧
    (map_disposition_2_nfsopen FILE_SUPERSEDE NFS4ERR_NOENT create last_error).status = NO_ERROR ∧
    (map_disposition_2_nfsopen FILE_CREATE 0 create last_error).status = ERROR_FILE_EXISTS ∧
    (map_disposition_2_nfsopen FILE_CREATE NFS4ERR_NOENT create last_error).status = NO_ERROR ∧
    (map_disposition_2_nfsopen FILE_OPEN 0 create last_error).status = NO_ERROR ∧
    (map_disposition_2_nfsopen FILE_OPEN NFS4ERR_NOENT create last_error).status
      = ERROR_FILE_NOT_FOUND ∧
    (map_disposition_2_nfsopen FILE_OPEN_IF 0 create last_error).status = NO_ERROR ∧
    (map_disposition_2_nfsopen FILE_OPEN_IF NFS4ERR_NOENT create last_error).status = NO_ERROR ∧
    (map_disposition_2_nfsopen FILE_OVERWRITE 0 create last_error).status = NO_ERROR ∧
    (map_disposition_2_nfsopen FILE_OVERWRITE NFS4ERR_NOENT create last_error).status
      = ERROR_FILE_NOT_FOUND ∧
    (map_disposition_2_nfsopen FILE_OVERWRITE_IF 0 create last_error).status = NO_ERROR ∧
    (map_disposition_2_nfsopen FILE_OVERWRITE_IF NFS4ERR_NOENT create last_error).status
      = NO_ERROR := by
  refine ⟨?_, ?_, ?_, ?_, ?_, ?_, ?_, ?_, ?_, ?_, ?_, ?_⟩ <;> rfl

/-- C2: for the nine combinations without a hard error,
`map_disposition_2_nfsopen` writes OPEN4_CREATE for (SUPERSEDE, not found),
(CREATE, not found), (OPEN_IF, not found), (OVERWRITE, found),
(OVERWRITE_IF, found), (OVERWRITE_IF, not found) and OPEN4_NOCREATE for
(SUPERSEDE, found), (OPEN, found), (OPEN_IF, found); it sets last_error to
ERROR_FILE_NOT_FOUND for (SUPERSEDE, not found), (OPEN_IF, not found),
(OVERWRITE_IF, not found) and leaves the incoming last_error in the other
six. -/
theorem map_disposition_create_and_last_error (create last_error : Nat) :
    (map_disposition_2_nfsopen FILE_SUPERSEDE NFS4ERR_NOENT create last_error
      = ⟨NO_ERROR, OPEN4_CREATE, ERROR_FILE_NOT_FOUND⟩) ∧
    (map_disposition_2_nfsopen FILE_SUPERSEDE 0 create last_error
      = ⟨NO_ERROR, OPEN4_NOCREATE, last_error⟩) ∧
    (map_disposition_2_nfsopen FILE_CREATE NFS4ERR_NOENT create last_error
      = ⟨NO_ERROR, OPEN4_CREATE, last_error⟩) ∧
    (map_disposition_2_nfsopen FILE_OPEN 0 create last_error
      = ⟨NO_ERROR, OPEN4_NOCREATE, last_error⟩) ∧
    (map_disposition_2_nfsopen FILE_OPEN_IF NFS4ERR_NOENT create last_error
      = ⟨NO_ERROR, OPEN4_CREATE, ERROR_FILE_NOT_FOUND⟩) ∧
    (map_disposition_2_nfsopen FILE_OPEN_IF 0 create last_error
      = ⟨NO_ERROR, OPEN4_NOCREATE, last_error⟩) ∧
    (map_disposition_2_nfsopen FILE_OVERWRITE 0 create last_error
      = ⟨NO_ERROR, OPEN4_CREATE, last_error⟩) ∧
    (map_disposition_2_nfsopen FILE_OVERWRITE_IF NFS4ERR_NOENT create last_error
      = ⟨NO_ERROR, OPEN4_CREATE, ERROR_FILE_NOT_FOUND⟩) ∧
    (map_disposition_2_nfsopen FILE_OVERWRITE_IF 0 create last_error
      = ⟨NO_ERROR, OPEN4_CREATE, last_error⟩) := by
  refine ⟨?_, ?_, ?_, ?_, ?_, ?_, ?_, ?_, ?_⟩ <;> rfl

/-! ## The lookup-only decision -/

/-- C3, as stated, fails: for a directory under disposition CREATE whose
access mask holds none of the four data bits, `do_lookup` returns false. -/
theorem do_lookup_attribute_only_directory_create :
    (0 &&& FILE_READ_DATA = 0 ∧ 0 &&& FILE_WRITE_DATA = 0 ∧
      0 &&& FILE_APPEND_DATA = 0 ∧ 0 &&& FILE_EXECUTE = 0) ∧
    do_lookup NF4DIR 0 FILE_CREATE = false := by
  decide

/-- C3, amended: `do_lookup` returns true exactly when the type is directory
and the disposition is OPEN or OVERWRITE, or the type is not directory and
the access mask holds none of FILE_READ_DATA, FILE_WRITE_DATA,
FILE_APPEND_DATA, FILE_EXECUTE; it returns false in every other case. -/
theorem do_lookup_iff (type access_mask disposition : Nat) :
    do_lookup type access_mask disposition = true ↔
      (type = NF4DIR ∧ (disposition = FILE_OPEN ∨ disposition = FILE_OVERWRITE)) ∨
      (type ≠ NF4DIR ∧ access_mask &&& FILE_READ_DATA = 0 ∧
        access_mask &&& FILE_WRITE_DATA = 0 ∧ access_mask &&& FILE_APPEND_DATA = 0 ∧
        access_mask &&& FILE_EXECUTE = 0) := by
  unfold do_lookup
  by_cases ht : type = NF4DIR
  · by_cases hd : disposition = FILE_OPEN ∨ disposition = FILE_OVERWRITE
    · simp [ht, hd]
    · simp [ht, hd]
  · by_cases hm : access_mask &&& FILE_READ_DATA ≠ 0 ∨
        access_mask &&& FILE_WRITE_DATA ≠ 0 ∨
        access_mask &&& FILE_APPEND_DATA ≠ 0 ∨
        access_mask &&& FILE_EXECUTE ≠ 0
    · rw [if_neg ht, if_pos hm]
      simp only [ht, false_and, false_or, not_false_eq_true, true_and, ne_eq]
      constructor
      · intro h; cases h
      · rintro ⟨h1, h2, h3, h4⟩
        rcases hm with h | h | h | h
        · exact absurd h1 h
        · exact absurd h2 h
        · exact absurd h3 h
        · exact absurd h4 h
    · rw [if_neg ht, if_neg hm]
      simp only [not_or, not_not, ne_eq] at hm
      simp [ht, hm]

/-! ## The execute-access check -/

/-- C9, as stated, fails: the query succeeds, the server reports neither
EXECUTE nor READ as supported and grants READ, and `check_execute_access`
still returns ERROR_ACCESS_DENIED. -/
theorem check_execute_access_read_granted_unsupported :
    (0 : Nat) &&& ACCESS4_EXECUTE = 0 ∧ ACCESS4_READ &&& ACCESS4_READ ≠ 0 ∧
    check_execute_access ⟨0, 0, ACCESS4_READ⟩ = ERROR_ACCESS_DENIED := by
  decide

/-- C9, amended: `check_execute_access` returns success exactly when the
query succeeded and either the server does not report EXECUTE in supported
and READ is both in the supported and in the granted bits, or the server
reports EXECUTE in supported and EXECUTE is in the granted bits; in every
other case, including any query failure, it returns ERROR_ACCESS_DENIED. -/
theorem check_execute_access_iff (a : AccessAnswer) :
    (check_execute_access a = NO_ERROR ↔
      a.status = 0 ∧
        ((a.supported &&& ACCESS4_EXECUTE = 0 ∧ a.supported &&& ACCESS4_READ ≠ 0 ∧
            a.access &&& ACCESS4_READ ≠ 0) ∨
          (a.supported &&& ACCESS4_EXECUTE ≠ 0 ∧ a.access &&& ACCESS4_EXECUTE ≠ 0))) ∧
    (check_execute_access a = NO_ERROR ∨ check_execute_access a = ERROR_ACCESS_DENIED) := by
  unfold check_execute_access
  by_cases hs : a.status = 0
  · by_cases hx : a.supported &&& ACCESS4_EXECUTE = 0
    · by_cases hr : a.supported &&& ACCESS4_READ = 0
      · simp [hs, hx, hr, NO_ERROR, ERROR_ACCESS_DENIED]
      · by_cases hg : a.access &&& ACCESS4_READ = 0
        · simp [hs, hx, hr, hg, NO_ERROR, ERROR_ACCESS_DENIED]
        · simp [hs, hx, hr, hg, NO_ERROR, ERROR_ACCESS_DENIED]
    · by_cases hg : a.access &&& ACCESS4_EXECUTE = 0
      · simp [hs, hx, hg, NO_ERROR, ERROR_ACCESS_DENIED]
      · simp [hs, hx, hg, NO_ERROR, ERROR_ACCESS_DENIED]
  · simp [hs, NO_ERROR, ERROR_ACCESS_DENIED]

/-! ## Close and cancel -/

/-- The sample translator turns every failure into a failure. -/
theorem sample_translate_ne_zero (s : Int) (hs : s ≠ 0) :
    sample_translate s ERROR_INTERNAL_ERROR ≠ 0 := by
  simp [sample_translate, hs, ERROR_INTERNAL_ERROR]

/-- C4: with an error translator that maps a failure to a failure,
`handle_close` returns the translated error of the remote close when the
close failed, whether or not the remove failed; the translated error of the
remove when the close succeeded or was not owed and the remove failed; and
0 when neither failed. -/
theorem handle_close_error_precedence (env : Env) (args : close_upcall_args)
    (htr : ∀ s : Int, s ≠ 0 → env.nfs_to_windows_error s ERROR_INTERNAL_ERROR ≠ 0) :
    ((args.state.do_close = true ∧ env.nfs41_close ≠ 0) →
      (handle_close env args).status =
        env.nfs_to_windows_error env.nfs41_close ERROR_INTERNAL_ERROR) ∧
    (¬ (args.state.do_close = true ∧ env.nfs41_close ≠ 0) →
      (args.remove = true ∧ env.nfs41_remove ≠ 0) →
      (handle_close env args).status =
        env.nfs_to_windows_error env.nfs41_remove ERROR_INTERNAL_ERROR) ∧
    (¬ (args.state.do_close = true ∧ env.nfs41_close ≠ 0) →
      ¬ (args.remove = true ∧ env.nfs41_remove ≠ 0) →
      (handle_close env args).status = 0) := by
  refine ⟨?_, ?_, ?_⟩
  · rintro ⟨hd, hc⟩
    have h := htr _ hc
    simp [handle_close, hd, hc, h]
  · intro hnc ⟨hr, hrm⟩
    by_cases hd : args.state.do_close = true
    · have hc : env.nfs41_close = 0 := by
        by_contra hc
        exact hnc ⟨hd, hc⟩
      by_cases ht : env.nfs_to_windows_error env.nfs41_remove ERROR_INTERNAL_ERROR = 0
      · simp [handle_close, hd, hc, hr, hrm, ht, NFS4_OK]
      · simp [handle_close, hd, hc, hr, hrm, ht, NFS4_OK]
    · by_cases ht : env.nfs_to_windows_error env.nfs41_remove ERROR_INTERNAL_ERROR = 0
      · simp [handle_close, hd, hr, hrm, ht, NFS4_OK]
      · simp [handle_close, hd, hr, hrm, ht, NFS4_OK]
  · intro hnc hnr
    have hrm : (if args.remove = true then
        (if env.nfs41_remove ≠ 0 then
          env.nfs_to_windows_error env.nfs41_remove ERROR_INTERNAL_ERROR
        else env.nfs41_remove)
        else ((NFS4_OK : Nat) : Int)) = 0 := by
      by_cases hr : args.remove = true
      · have h0 : env.nfs41_remove = 0 := by
          by_contra h0
          exact hnr ⟨hr, h0⟩
        simp [hr, h0]
      · simp [hr, NFS4_OK]
    by_cases hd : args.state.do_close = true
    · have hc : env.nfs41_close = 0 := by
        by_contra hc
        exact hnc ⟨hd, hc⟩
      simp only [handle_close, hrm]
      simp [hd, hc]
    · simp only [handle_close, hrm]
      simp [hd, NFS4_OK]

/-- Witness of C4: the remote close fails with 10008 and the remote remove
with 13; the close error, translated, is returned. -/
theorem handle_close_error_precedence_witness :
    (∀ s : Int, s ≠ 0 →
      (sample_close_env 10008 13).nfs_to_windows_error s ERROR_INTERNAL_ERROR ≠ 0) ∧
    (handle_close (sample_close_env 10008 13) (sample_close_args true true false)).status =
      (sample_close_env 10008 13).nfs_to_windows_error
        (sample_close_env 10008 13).nfs41_close ERROR_INTERNAL_ERROR :=
  ⟨sample_translate_ne_zero,
    (handle_close_error_precedence (sample_close_env 10008 13)
      (sample_close_args true true false) sample_translate_ne_zero).1 ⟨rfl, by decide⟩⟩

/-- C5: `cancel_open` after a failed open issues no remote call, releases
nothing and does not depend on the attached state; after a successful open
with do_close set it issues exactly one remote close and no remove; after a
successful open with do_close clear and created set it issues exactly one
remote remove, of the file name under the parent, and no close; it never
issues both; and after a successful open the state is released exactly
once. -/
theorem cancel_open_undo (env : Env) (upcall : nfs41_upcall) :
    (upcall.status ≠ 0 →
      ∃ r, cancel_open env upcall = some r ∧ r.trace = [] ∧
        ∀ st, cancel_open env { upcall with args := { upcall.args with state := st } }
          = some r) ∧
    (∀ state, upcall.status = 0 → upcall.args.state = some state →
      state.do_close = true →
      ∃ r, cancel_open env upcall = some r ∧
        r.trace = [Event.nfs41_close, Event.free] ∧
        r.trace.countP is_close = 1 ∧ r.trace.countP is_remove = 0 ∧
        count_free r.trace = 1) ∧
    (∀ state, upcall.status = 0 → upcall.args.state = some state →
      state.do_close = false → upcall.args.created = true →
      ∃ r, cancel_open env upcall = some r ∧
        r.trace = [Event.nfs41_remove state.parent state.file.name, Event.free] ∧
        r.trace.countP is_remove = 1 ∧ r.trace.countP is_close = 0 ∧
        count_free r.trace = 1) ∧
    (∀ state, upcall.status = 0 → upcall.args.state = some state →
      ∃ r, cancel_open env upcall = some r ∧ count_free r.trace = 1) ∧
    (∀ r, cancel_open env upcall = some r →
      ¬ (r.trace.countP is_close ≠ 0 ∧ r.trace.countP is_remove ≠ 0)) := by
  refine ⟨?_, ?_, ?_, ?_, ?_⟩
  · intro hs
    refine ⟨⟨env.nfs_to_windows_error NFS4_OK ERROR_INTERNAL_ERROR, []⟩, ?_, rfl, ?_⟩
    · simp [cancel_open, hs]
    · intro st
      simp [cancel_open, hs]
  · intro state hs hst hd
    refine ⟨⟨env.nfs_to_windows_error env.nfs41_close ERROR_INTERNAL_ERROR,
      [Event.nfs41_close, Event.free]⟩, ?_, rfl, ?_, ?_, ?_⟩
    · simp [cancel_open, hs, hst, hd]
    · simp [is_close]
    · simp [is_remove]
    · simp [count_free]
  · intro state hs hst hd hc
    refine ⟨⟨env.nfs_to_windows_error env.nfs41_remove ERROR_INTERNAL_ERROR,
      [Event.nfs41_remove state.parent state.file.name, Event.free]⟩, ?_, rfl, ?_, ?_, ?_⟩
    · simp [cancel_open, hs, hst, hd, hc]
    · simp [is_remove]
    · simp [is_close]
    · simp [count_free]
  · intro state hs hst
    by_cases hd : state.do_close = true
    · exact ⟨_, by simp only [cancel_open, hs, hst, hd]; rfl, by simp [count_free]⟩
    · by_cases hc : upcall.args.created = true
      · exact ⟨_, by simp only [cancel_open, hs, hst, hd, hc]; rfl, by simp [count_free]⟩
      · exact ⟨_, by simp only [cancel_open, hs, hst, hd, hc]; rfl, by simp [count_free]⟩
  · intro r hr
    unfold cancel_open at hr
    by_cases hs : upcall.status = 0
    · cases hst : upcall.args.state with
      | none => simp [hs, hst] at hr
      | some state =>
        by_cases hd : state.do_close = true
        · simp [hs, hst, hd] at hr
          subst hr
          simp [is_close, is_remove]
        · by_cases hc : upcall.args.created = true
          · simp [hs, hst, hd, hc] at hr
            subst hr
            simp [is_close, is_remove]
          · simp [hs, hst, hd, hc] at hr
            subst hr
            simp [is_close, is_remove]
    · simp [hs] at hr
      subst hr
      simp [is_close, is_remove]

/-- Witness of C5: cancelling a successful open of a created directory
(do_close clear, created set) issues one remove and releases the state. -/
theorem cancel_open_undo_witness :
    ∃ r, cancel_open (sample_close_env 0 0)
        (sample_cancel_upcall 0 (some (sample_state NF4DIR false)) true) = some r ∧
      r.trace = [Event.nfs41_remove (sample_state NF4DIR false).parent
        (sample_state NF4DIR false).file.name, Event.free] ∧
      r.trace.countP is_remove = 1 ∧ r.trace.countP is_close = 0 ∧
      count_free r.trace = 1 :=
  (cancel_open_undo (sample_close_env 0 0)
    (sample_cancel_upcall 0 (some (sample_state NF4DIR false)) true)).2.2.1
    (sample_state NF4DIR false) rfl rfl rfl rfl

/-! ## The reparse loop -/

/-- The loop only appends to the trace: target fetches and lookups, at most
`NFS41_MAX_SYMLINK_DEPTH - depth` of the latter, no release and no hand-off. -/
theorem reparse_loop_trace (env : Env) :
    ∀ (n depth : Nat) (state : nfs41_open_state) (trace : List Event),
      env.NFS41_MAX_SYMLINK_DEPTH + 1 - depth = n →
      ∃ ex, (reparse_loop env depth state trace).trace = trace ++ ex ∧
        ex.countP is_lookup ≤ env.NFS41_MAX_SYMLINK_DEPTH - depth ∧
        ex.count Event.free = 0 ∧ ex.count Event.attach = 0 := by
  intro n
  induction n with
  | zero =>
    intro depth state trace hn
    rw [reparse_loop]
    have h : depth + 1 > env.NFS41_MAX_SYMLINK_DEPTH := by omega
    rw [dif_pos h]
    exact ⟨[], by simp [ReparseOutcome.trace], by simp, by simp, by simp⟩
  | succ n ih =>
    intro depth state trace hn
    rw [reparse_loop]
    by_cases h : depth + 1 > env.NFS41_MAX_SYMLINK_DEPTH
    · rw [dif_pos h]
      exact ⟨[], by simp [ReparseOutcome.trace], by simp, by simp, by simp⟩
    · rw [dif_neg h]
      by_cases ht : (env.nfs41_symlink_target depth).status = 0
      · by_cases hl : (env.nfs41_lookup (depth + 1)).status = ERROR_REPARSE
        · simp only [ht, hl, ne_eq, not_true_eq_false, if_false, if_true]
          obtain ⟨ex, hex, hc, hf, ha⟩ := ih (depth + 1)
            { state with
              path := (env.nfs41_symlink_target depth).target
              parent := (env.nfs41_lookup (depth + 1)).parent
              session := (env.nfs41_lookup (depth + 1)).session }
            (trace ++ [Event.nfs41_symlink_target] ++
              [Event.nfs41_lookup (env.nfs41_symlink_target depth).target]) (by omega)
          refine ⟨[Event.nfs41_symlink_target,
            Event.nfs41_lookup (env.nfs41_symlink_target depth).target] ++ ex, ?_, ?_, ?_, ?_⟩
          · rw [hex]; simp
          · simp [List.countP_cons, is_lookup]; omega
          · simp [List.count_cons, hf]
          · simp [List.count_cons, ha]
        · simp only [ht, hl, ne_eq, not_true_eq_false, if_false]
          refine ⟨[Event.nfs41_symlink_target,
            Event.nfs41_lookup (env.nfs41_symlink_target depth).target], ?_, ?_, ?_, ?_⟩
          · simp [ReparseOutcome.trace]
          · simp [List.countP_cons, is_lookup]; omega
          · simp [List.count_cons]
          · simp [List.count_cons]
      · simp only [ht, ne_eq, not_false_eq_true, if_true]
        refine ⟨[Event.nfs41_symlink_target], ?_, ?_, ?_, ?_⟩
        · simp [ReparseOutcome.trace]
        · simp [List.countP_cons, is_lookup]
        · simp [List.count_cons]
        · simp [List.count_cons]

/-- A chain that stops signalling a reparse at lookup `N` within the depth
limit, with all target fetches succeeding, ends the loop with the path of
the last fetched target. -/
theorem reparse_loop_resolved (env : Env) :
    ∀ (n depth : Nat) (state : nfs41_open_state) (trace : List Event) (N : Nat),
      N = depth + 1 + n → N ≤ env.NFS41_MAX_SYMLINK_DEPTH →
      (∀ k, depth < k → k < N → (env.nfs41_lookup k).status = ERROR_REPARSE) →
      (env.nfs41_lookup N).status ≠ ERROR_REPARSE →
      (∀ k, depth ≤ k → k < N → (env.nfs41_symlink_target k).status = 0) →
      ∃ st tr, reparse_loop env depth state trace = .resolved st tr ∧
        st.path = (env.nfs41_symlink_target (N - 1)).target := by
  intro n
  induction n with
  | zero =>
    intro depth state trace N hN hmax _ hstop hfetch
    subst hN
    rw [reparse_loop]
    have h : ¬ depth + 1 > env.NFS41_MAX_SYMLINK_DEPTH := by omega
    have ht := hfetch depth (le_refl _) (by omega)
    have hl : (env.nfs41_lookup (depth + 1)).status ≠ ERROR_REPARSE := hstop
    rw [dif_neg h]
    simp only [ht, hl, ne_eq, not_true_eq_false, if_false]
    exact ⟨_, _, rfl, by simp⟩
  | succ n ih =>
    intro depth state trace N hN hmax hsig hstop hfetch
    rw [reparse_loop]
    have h : ¬ depth + 1 > env.NFS41_MAX_SYMLINK_DEPTH := by omega
    have ht := hfetch depth (le_refl _) (by omega)
    have hl := hsig (depth + 1) (by omega) (by omega)
    rw [dif_neg h]
    simp only [ht, hl, ne_eq, not_true_eq_false, if_false, if_true]
    exact ih (depth + 1) _ _ N (by omega) hmax
      (fun k hk1 hk2 => hsig k (by omega) hk2) hstop
      (fun k hk1 hk2 => hfetch k (by omega) hk2)

/-- A chain that keeps signalling a reparse up to lookup
`NFS41_MAX_SYMLINK_DEPTH`, with all target fetches succeeding, ends the loop
with ERROR_TOO_MANY_LINKS. -/
theorem reparse_loop_too_many (env : Env) :
    ∀ (n depth : Nat) (state : nfs41_open_state) (trace : List Event),
      env.NFS41_MAX_SYMLINK_DEPTH - depth = n → depth ≤ env.NFS41_MAX_SYMLINK_DEPTH →
      (∀ k, depth < k → k ≤ env.NFS41_MAX_SYMLINK_DEPTH →
        (env.nfs41_lookup k).status = ERROR_REPARSE) →
      (∀ k, depth ≤ k → k < env.NFS41_MAX_SYMLINK_DEPTH →
        (env.nfs41_symlink_target k).status = 0) →
      ∃ tr, reparse_loop env depth state trace = .failed ERROR_TOO_MANY_LINKS tr := by
  intro n
  induction n with
  | zero =>
    intro depth state trace hn hle _ _
    rw [reparse_loop]
    have h : depth + 1 > env.NFS41_MAX_SYMLINK_DEPTH := by omega
    rw [dif_pos h]
    exact ⟨_, rfl⟩
  | succ n ih =>
    intro depth state trace hn hle hsig hfetch
    rw [reparse_loop]
    have h : ¬ depth + 1 > env.NFS41_MAX_SYMLINK_DEPTH := by omega
    have ht := hfetch depth (le_refl _) (by omega)
    have hl := hsig (depth + 1) (by omega) (by omega)
    rw [dif_neg h]
    simp only [ht, hl, ne_eq, not_true_eq_false, if_false, if_true]
    exact ih (depth + 1) _ _ (by omega) (by omega)
      (fun k hk1 hk2 => hsig k (by omega) hk2)
      (fun k hk1 hk2 => hfetch k (by omega) hk2)

/-! ## The exits of the open orchestrator -/

/-- The create-or-open branch keeps `stage_ok`. -/
theorem handle_open_create_or_open_ok (env : Env) (upcall : nfs41_upcall)
    (state : nfs41_open_state) (status : Int) (trace : List Event) :
    stage_ok upcall state trace
      (handle_open_create_or_open env upcall state status trace) := by
  unfold handle_open_create_or_open stage_ok
  simp only []
  split_ifs <;>
    simp_all [out_free_state, attach_state, List.count_append, List.countP_append,
      List.count_cons, List.countP_cons, is_lookup, is_open_ok, is_create, NFS4_OK, NO_ERROR] <;>
    omega

/-- The three branches of lines 325-390 keep `stage_ok`. -/
theorem handle_open_dispatch_ok (env : Env) (upcall : nfs41_upcall)
    (state : nfs41_open_state) (info : nfs41_file_info) (status : Int)
    (trace : List Event) :
    stage_ok upcall state trace
      (handle_open_dispatch env upcall state info status trace) := by
  unfold handle_open_dispatch
  simp only []
  split_ifs
  · simp_all [stage_ok, out_free_state, List.count_append, List.countP_append,
      List.count_cons, List.countP_cons, is_lookup, is_open_ok, is_create, NO_ERROR]
  · simp_all [stage_ok, attach_state, List.count_append, List.countP_append,
      List.count_cons, List.countP_cons, is_lookup, is_open_ok, is_create, NO_ERROR]
  · simp_all [stage_ok, out_free_state, List.count_append, List.countP_append,
      List.count_cons, List.countP_cons, is_lookup, is_open_ok, is_create, NO_ERROR]
  · simp_all [stage_ok, attach_state, List.count_append, List.countP_append,
      List.count_cons, List.countP_cons, is_lookup, is_open_ok, is_create, NO_ERROR]
  · exact handle_open_create_or_open_ok env upcall state status trace

/-- The predicate `stage_ok` does not depend on the type recorded in the state it starts
from. -/
theorem stage_ok_with_type (upcall : nfs41_upcall) (state : nfs41_open_state)
    (type : Nat) (trace : List Event) (r : OpenResult)
    (h : stage_ok upcall { state with type := type } trace r) :
    stage_ok upcall state trace r := h

/-- The predicate `stage_ok` passes over a plain event appended to the trace before the
stage. -/
theorem stage_ok_after_plain (upcall : nfs41_upcall) (state : nfs41_open_state)
    (trace : List Event) (e : Event) (r : OpenResult)
    (he : is_lookup e = false ∧ e ≠ Event.free ∧ e ≠ Event.attach ∧
      is_open_ok e = false ∧ is_create e = false)
    (h : stage_ok upcall state (trace ++ [e]) r) :
    stage_ok upcall state trace r := by
  obtain ⟨h1, h2, h3, h4, h5⟩ := he
  unfold stage_ok at h ⊢
  simp only [List.count_append, List.countP_append, List.countP_cons, List.count_cons,
    List.countP_nil, List.count_nil, h1, h4, h5] at h
  have hf : (e == Event.free) = false := by simpa using h2
  have ha : (e == Event.attach) = false := by simpa using h3
  simp only [hf, ha] at h
  simpa using h

/-- The type check of lines 269-313 keeps `stage_ok`. -/
theorem handle_open_typed_ok (env : Env) (upcall : nfs41_upcall)
    (state : nfs41_open_state) (l : LookupAnswer) (trace : List Event) :
    stage_ok upcall state trace (handle_open_typed env upcall state l trace) := by
  unfold handle_open_typed
  simp only []
  split_ifs
  · simp [stage_ok, out_free_state, List.count_append, List.countP_append,
      List.count_cons, List.countP_cons, is_lookup, is_open_ok, is_create]
  · exact stage_ok_with_type _ _ _ _ _ (handle_open_dispatch_ok _ _ _ _ _ _)
  · exact stage_ok_with_type _ _ _ _ _ (handle_open_dispatch_ok _ _ _ _ _ _)
  · exact stage_ok_after_plain _ _ _ Event.nfs41_symlink_follow _ (by simp [is_lookup, is_open_ok, is_create])
      (stage_ok_with_type _ _ _ _ _ (handle_open_dispatch_ok _ _ _ _ _ _))
  · exact stage_ok_after_plain _ _ _ Event.nfs41_symlink_follow _ (by simp [is_lookup, is_open_ok, is_create])
      (stage_ok_with_type _ _ _ _ _ (handle_open_dispatch_ok _ _ _ _ _ _))
  · simp [stage_ok, out_free_state, List.count_append, List.countP_append,
      List.count_cons, List.countP_cons, is_lookup, is_open_ok, is_create]
  · exact stage_ok_with_type _ _ _ _ _ (handle_open_dispatch_ok _ _ _ _ _ _)
  · simp [stage_ok, out_free_state, List.count_append, List.countP_append,
      List.count_cons, List.countP_cons, is_lookup, is_open_ok, is_create]
  · exact handle_open_dispatch_ok _ _ _ _ _ _

/-- The function `create_open_state` either writes no state and issues no remote call, or
succeeds with an empty trace and a state whose do_close is clear. -/
theorem create_open_state_cases (env : Env) (path : List Nat) (open_owner_id : Nat) :
    ((create_open_state env path open_owner_id).state = none ∧
      (create_open_state env path open_owner_id).trace.countP is_lookup = 0 ∧
      Event.attach ∉ (create_open_state env path open_owner_id).trace) ∨
    (∃ st, create_open_state env path open_owner_id = ⟨0, some st, []⟩ ∧
      st.do_close = false) := by
  unfold create_open_state
  cases env.calloc_error with
  | some e => left; simp
  | none =>
    by_cases hp : env.NFS41_MAX_PATH_LEN ≤ strlen path
    · left; simp [hp, is_lookup]
    · right; simp [hp, NO_ERROR]

/-- When `create_open_state` writes no state, `handle_open` adds nothing to
its trace. -/
theorem handle_open_not_built (env : Env) (upcall : nfs41_upcall)
    (hn : (create_open_state env upcall.args.path upcall.args.open_owner_id).state = none) :
    (handle_open env upcall).trace =
      (create_open_state env upcall.args.path upcall.args.open_owner_id).trace := by
  unfold handle_open
  simp only [hn]
  split_ifs <;> rfl

/-- The exits of `handle_open`: it issues at most NFS41_MAX_SYMLINK_DEPTH + 1
lookups and at most one remote directory create or successful remote OPEN;
and once the open state was built it either releases the state once,
hands nothing off and leaves `args.state` alone, or releases nothing, hands
the state off once with status 0, and the state handed off has do_close set
exactly when a remote OPEN succeeded. -/
theorem handle_open_exits (env : Env) (upcall : nfs41_upcall) :
    (handle_open env upcall).trace.countP is_lookup ≤ env.NFS41_MAX_SYMLINK_DEPTH + 1 ∧
    ((create_open_state env upcall.args.path upcall.args.open_owner_id).state ≠ none →
      ((handle_open env upcall).trace.count Event.free = 1 ∧
        (handle_open env upcall).trace.count Event.attach = 0 ∧
        (handle_open env upcall).upcall.args.state = upcall.args.state) ∨
      ((handle_open env upcall).trace.count Event.free = 0 ∧
        (handle_open env upcall).trace.count Event.attach = 1 ∧
        (handle_open env upcall).status = 0 ∧
        ∃ st, (handle_open env upcall).upcall.args.state = some st ∧
          (st.do_close = true ↔
            0 < (handle_open env upcall).trace.countP is_open_ok) ∧
          (handle_open env upcall).trace.countP is_open_ok +
            (handle_open env upcall).trace.countP is_create ≤ 1)) := by
  rcases create_open_state_cases env upcall.args.path upcall.args.open_owner_id with
    ⟨hn, hl, _⟩ | ⟨st, hc, hd⟩
  · constructor
    · unfold handle_open
      simp only [hn]
      split_ifs <;> simp [hl]
    · intro h; exact absurd hn h
  · unfold handle_open
    simp only [hc, ne_eq, not_true_eq_false, if_false, List.nil_append]
    by_cases hr : (env.nfs41_lookup 0).status = ERROR_REPARSE
    · simp only [hr, if_true]
      obtain ⟨ex, hex, hcount, hfree, hatt⟩ := reparse_loop_trace env _ 0
        { st with
          type := if upcall.args.create_opts &&& FILE_DIRECTORY_FILE ≠ 0 then NF4DIR
            else NF4REG
          parent := (env.nfs41_lookup 0).parent
          file := (env.nfs41_lookup 0).file
          session := (env.nfs41_lookup 0).session }
        [Event.nfs41_lookup st.path] rfl
      revert hex
      cases reparse_loop env 0 _ [Event.nfs41_lookup st.path] with
      | failed s tr =>
        intro hex
        simp only [ReparseOutcome.trace] at hex
        subst hex
        simp [out_free_state, List.count_append, List.countP_append, List.count_cons,
          List.countP_cons, is_lookup, hfree, hatt]
        omega
      | resolved s tr =>
        intro hex
        simp only [ReparseOutcome.trace] at hex
        subst hex
        simp [out_free_state, List.count_append, List.countP_append, List.count_cons,
          List.countP_cons, is_lookup, hfree, hatt]
        omega
    · simp only [hr, if_false]
      have key : ∀ (s : nfs41_open_state) (r : OpenResult), s.do_close = false →
          stage_ok upcall s [Event.nfs41_lookup st.path] r →
          r.trace.countP is_lookup ≤ env.NFS41_MAX_SYMLINK_DEPTH + 1 ∧
          (¬ (some st = none) →
            (r.trace.count Event.free = 1 ∧ r.trace.count Event.attach = 0 ∧
              r.upcall.args.state = upcall.args.state) ∨
            (r.trace.count Event.free = 0 ∧ r.trace.count Event.attach = 1 ∧
              r.status = 0 ∧
              ∃ st, r.upcall.args.state = some st ∧
                (st.do_close = true ↔ 0 < r.trace.countP is_open_ok) ∧
                r.trace.countP is_open_ok + r.trace.countP is_create ≤ 1)) := by
        intro s r hs h
        unfold stage_ok at h
        simp only [List.count_cons, List.countP_cons, List.count_nil, List.countP_nil,
          is_lookup, is_open_ok, is_create, hs] at h
        obtain ⟨h1, h3, h2⟩ := h
        constructor
        · rw [h1]; simp
        · intro _
          rcases h2 with h2 | ⟨h2, h4, h5, st1, h6, h7⟩
          · left; simpa using h2
          · right
            refine ⟨by simpa using h2, by simpa using h4, h5, st1, h6, ?_, by simpa using h3⟩
            simpa using h7
      exact key _ _ hd (handle_open_typed_ok env upcall _ (env.nfs41_lookup 0) _)

/-! ## The claims on the open orchestrator -/

/-- C6: when every symlink-target fetch succeeds, a chain whose lookups
signal a reparse N consecutive times (the first lookup included), 1 <= N <=
NFS41_MAX_SYMLINK_DEPTH, and then stop, makes `handle_open` return NO_ERROR
with the reparse signalled and the last fetched target as symlink; a chain
that signals a reparse NFS41_MAX_SYMLINK_DEPTH + 1 times makes it return
ERROR_TOO_MANY_LINKS; and whatever the collaborators answer, `handle_open`
(a total function) issues at most NFS41_MAX_SYMLINK_DEPTH + 1 lookups. -/
theorem handle_open_reparse_chain (env : Env) (upcall : nfs41_upcall) :
    (∀ N, (create_open_state env upcall.args.path upcall.args.open_owner_id).state ≠ none →
      1 ≤ N → N ≤ env.NFS41_MAX_SYMLINK_DEPTH →
      (∀ k, k < N → (env.nfs41_lookup k).status = ERROR_REPARSE) →
      (env.nfs41_lookup N).status ≠ ERROR_REPARSE →
      (∀ k, k < N → (env.nfs41_symlink_target k).status = 0) →
      (handle_open env upcall).status = NO_ERROR ∧
      (handle_open env upcall).upcall.last_error = ERROR_REPARSE ∧
      (handle_open env upcall).upcall.args.symlink_embedded = true ∧
      (handle_open env upcall).upcall.args.symlink =
        (env.nfs41_symlink_target (N - 1)).target) ∧
    ((create_open_state env upcall.args.path upcall.args.open_owner_id).state ≠ none →
      (∀ k, k ≤ env.NFS41_MAX_SYMLINK_DEPTH →
        (env.nfs41_lookup k).status = ERROR_REPARSE) →
      (∀ k, k < env.NFS41_MAX_SYMLINK_DEPTH → (env.nfs41_symlink_target k).status = 0) →
      (handle_open env upcall).status = ERROR_TOO_MANY_LINKS) ∧
    (handle_open env upcall).trace.countP is_lookup ≤ env.NFS41_MAX_SYMLINK_DEPTH + 1 := by
  refine ⟨?_, ?_, (handle_open_exits env upcall).1⟩
  · intro N hb hN1 hN hsig hstop hfetch
    rcases create_open_state_cases env upcall.args.path upcall.args.open_owner_id with
      ⟨hn, _⟩ | ⟨st, hc, _⟩
    · exact absurd hn hb
    · have h0 := hsig 0 (by omega)
      unfold handle_open
      simp only [hc, ne_eq, not_true_eq_false, if_false, List.nil_append, h0, if_true]
      obtain ⟨st1, tr1, hres, hpath⟩ := reparse_loop_resolved env (N - 1) 0
        { st with
          type := if upcall.args.create_opts &&& FILE_DIRECTORY_FILE ≠ 0 then NF4DIR
            else NF4REG
          parent := (env.nfs41_lookup 0).parent
          file := (env.nfs41_lookup 0).file
          session := (env.nfs41_lookup 0).session }
        [Event.nfs41_lookup st.path] N (by omega) hN
        (fun k _ hk => hsig k hk) hstop (fun k _ hk => hfetch k hk)
      simp only [hres]
      simp [out_free_state, hpath]
  · intro hb hsig hfetch
    rcases create_open_state_cases env upcall.args.path upcall.args.open_owner_id with
      ⟨hn, _⟩ | ⟨st, hc, _⟩
    · exact absurd hn hb
    · have h0 := hsig 0 (by omega)
      unfold handle_open
      simp only [hc, ne_eq, not_true_eq_false, if_false, List.nil_append, h0, if_true]
      obtain ⟨tr1, hres⟩ := reparse_loop_too_many env _ 0
        { st with
          type := if upcall.args.create_opts &&& FILE_DIRECTORY_FILE ≠ 0 then NF4DIR
            else NF4REG
          parent := (env.nfs41_lookup 0).parent
          file := (env.nfs41_lookup 0).file
          session := (env.nfs41_lookup 0).session }
        [Event.nfs41_lookup st.path] rfl (by omega)
        (fun k _ hk => hsig k hk) (fun k _ hk => hfetch k hk)
      simp only [hres]
      simp [out_free_state]

/-- Witness of C6: two lookups signal a reparse, the third finds the entry;
the open resolves to the second fetched target, "/c". -/
theorem handle_open_reparse_chain_witness :
    (handle_open (sample_chain_env 2) (sample_upcall FILE_READ_DATA 0 FILE_OPEN)).status
      = NO_ERROR ∧
    (handle_open (sample_chain_env 2) (sample_upcall FILE_READ_DATA 0 FILE_OPEN)).upcall.last_error
      = ERROR_REPARSE ∧
    (handle_open (sample_chain_env 2)
      (sample_upcall FILE_READ_DATA 0 FILE_OPEN)).upcall.args.symlink_embedded = true ∧
    (handle_open (sample_chain_env 2) (sample_upcall FILE_READ_DATA 0 FILE_OPEN)).upcall.args.symlink
      = ((sample_chain_env 2).nfs41_symlink_target (2 - 1)).target :=
  (handle_open_reparse_chain (sample_chain_env 2)
    (sample_upcall FILE_READ_DATA 0 FILE_OPEN)).1 2 (by decide) (by decide) (by decide)
    (by decide) (by decide) (by decide)

/-- C7: every execution of `handle_open` that returns a non-zero status after
the open state was built releases the state exactly once, does not hand it
off, and leaves `args.state` as it was. -/
theorem handle_open_error_releases (env : Env) (upcall : nfs41_upcall)
    (hb : (create_open_state env upcall.args.path upcall.args.open_owner_id).state ≠ none)
    (hs : (handle_open env upcall).status ≠ 0) :
    count_free (handle_open env upcall).trace = 1 ∧
    Event.attach ∉ (handle_open env upcall).trace ∧
    (handle_open env upcall).upcall.args.state = upcall.args.state := by
  rcases (handle_open_exits env upcall).2 hb with ⟨hf, ha, hst⟩ | ⟨_, _, h0, _⟩
  · exact ⟨hf, List.count_eq_zero.mp ha, hst⟩
  · exact absurd h0 hs

/-- Witness of C7: disposition CREATE on an existing regular file fails with
ERROR_FILE_EXISTS; the state is released once and not handed off. -/
theorem handle_open_error_releases_witness :
    (handle_open (sample_env 0 NF4REG ⟨0, 0, 0⟩)
      (sample_upcall FILE_READ_DATA 0 FILE_CREATE)).status = ERROR_FILE_EXISTS ∧
    count_free (handle_open (sample_env 0 NF4REG ⟨0, 0, 0⟩)
      (sample_upcall FILE_READ_DATA 0 FILE_CREATE)).trace = 1 ∧
    Event.attach ∉ (handle_open (sample_env 0 NF4REG ⟨0, 0, 0⟩)
      (sample_upcall FILE_READ_DATA 0 FILE_CREATE)).trace ∧
    (handle_open (sample_env 0 NF4REG ⟨0, 0, 0⟩)
      (sample_upcall FILE_READ_DATA 0 FILE_CREATE)).upcall.args.state =
      (sample_upcall FILE_READ_DATA 0 FILE_CREATE).args.state :=
  ⟨by decide, handle_open_error_releases (sample_env 0 NF4REG ⟨0, 0, 0⟩)
    (sample_upcall FILE_READ_DATA 0 FILE_CREATE) (by decide) (by decide)⟩

/-- C8: whenever `handle_open` hands an open state back, that state has
do_close set if and only if the trace holds a remote OPEN that returned
success; a hand-off after a remote directory create has do_close clear; and
the deferred-create and lookup-only branches issue no remote call and hand
off the state with do_close as `create_open_state` left it. -/
theorem handle_open_do_close_iff (env : Env) (upcall : nfs41_upcall) :
    (Event.attach ∈ (handle_open env upcall).trace →
      ∃ st, (handle_open env upcall).upcall.args.state = some st ∧
        (st.do_close = true ↔
          ∃ e ∈ (handle_open env upcall).trace, is_open_ok e = true) ∧
        ((∃ e ∈ (handle_open env upcall).trace, is_create e = true) →
          st.do_close = false)) ∧
    (∀ st, (create_open_state env upcall.args.path upcall.args.open_owner_id).state
      = some st → st.do_close = false) ∧
    (∀ (state : nfs41_open_state) (info : nfs41_file_info) (status : Int)
        (trace : List Event),
      ((upcall.args.disposition = FILE_CREATE ∧
          upcall.args.access_mask = (FILE_WRITE_ATTRIBUTES ||| SYNCHRONIZE ||| DELETE) ∧
          upcall.args.access_mode = 0 ∧
          upcall.args.create_opts &&& FILE_OPEN_REPARSE_POINT ≠ 0) ∨
        do_lookup state.type upcall.args.access_mask upcall.args.disposition = true) →
      (handle_open_dispatch env upcall state info status trace).trace
          = trace ++ [Event.free] ∨
        ((handle_open_dispatch env upcall state info status trace).trace
            = trace ++ [Event.attach] ∧
          ∃ st, (handle_open_dispatch env upcall state info status trace).upcall.args.state
              = some st ∧ st.do_close = state.do_close)) := by
  refine ⟨?_, ?_, ?_⟩
  · intro ha
    rcases create_open_state_cases env upcall.args.path upcall.args.open_owner_id with
      ⟨hn, _, hna⟩ | ⟨st0, hc, _⟩
    · rw [handle_open_not_built env upcall hn] at ha
      exact absurd ha hna
    · have hb : (create_open_state env upcall.args.path upcall.args.open_owner_id).state
          ≠ none := by rw [hc]; simp
      rcases (handle_open_exits env upcall).2 hb with ⟨_, h0, _⟩ | ⟨_, _, _, st, hst, hiff, hle⟩
      · exact absurd ha (List.count_eq_zero.mp h0)
      · refine ⟨st, hst, ?_, ?_⟩
        · rw [hiff, List.countP_pos_iff]
        · intro hcr
          have hpos : 0 < (handle_open env upcall).trace.countP is_create :=
            List.countP_pos_iff.mpr hcr
          have hz : ¬ 0 < (handle_open env upcall).trace.countP is_open_ok := by omega
          have : ¬ st.do_close = true := fun h => hz (hiff.mp h)
          simpa using this
  · intro st hst
    rcases create_open_state_cases env upcall.args.path upcall.args.open_owner_id with
      ⟨hn, _, _⟩ | ⟨st0, hc, hd⟩
    · rw [hn] at hst; cases hst
    · rw [hc] at hst
      simp only [Option.some.injEq] at hst
      subst hst
      exact hd
  · intro state info status trace hbr
    unfold handle_open_dispatch
    simp only []
    split_ifs with h1 h2 h3 h4
    · left; simp [out_free_state]
    · right; simp [attach_state]
    · left; simp [out_free_state]
    · right; simp [attach_state]
    · rcases hbr with hsig | hlk
      · exact absurd hsig h1
      · exact absurd hlk h3

/-- Witness of C8: disposition OPEN with read access on an existing regular
file issues a remote OPEN that succeeds; the state handed back has do_close
set. -/
theorem handle_open_do_close_iff_witness :
    ∃ st, (handle_open (sample_env 0 NF4REG ⟨0, 0, 0⟩)
        (sample_upcall FILE_READ_DATA 0 FILE_OPEN)).upcall.args.state = some st ∧
      (st.do_close = true ↔
        ∃ e ∈ (handle_open (sample_env 0 NF4REG ⟨0, 0, 0⟩)
          (sample_upcall FILE_READ_DATA 0 FILE_OPEN)).trace, is_open_ok e = true) ∧
      ((∃ e ∈ (handle_open (sample_env 0 NF4REG ⟨0, 0, 0⟩)
          (sample_upcall FILE_READ_DATA 0 FILE_OPEN)).trace, is_create e = true) →
        st.do_close = false) :=
  (handle_open_do_close_iff (sample_env 0 NF4REG ⟨0, 0, 0⟩)
    (sample_upcall FILE_READ_DATA 0 FILE_OPEN)).1 (by decide)

/-! ## Creating a new file -/

/-- The access mask of the symlink-creation signature holds no data bit. -/
theorem signature_mask_no_data :
    (FILE_WRITE_ATTRIBUTES ||| SYNCHRONIZE ||| DELETE) &&& FILE_READ_DATA = 0 ∧
    (FILE_WRITE_ATTRIBUTES ||| SYNCHRONIZE ||| DELETE) &&& FILE_WRITE_DATA = 0 ∧
    (FILE_WRITE_ATTRIBUTES ||| SYNCHRONIZE ||| DELETE) &&& FILE_APPEND_DATA = 0 := by
  decide

/-- C10, as stated, fails: disposition CREATE without the directory-file
option and with read access, the lookup answers not-found and the remote
open with OPEN4_CREATE succeeds; `handle_open` returns success with the
state attached and do_close set, but the created flag of the request is
false. -/
theorem handle_open_create_new_created_false :
    (sample_upcall FILE_READ_DATA 0 FILE_CREATE).args.disposition = FILE_CREATE ∧
    ((sample_env ERROR_FILE_NOT_FOUND NF4REG ⟨0, 0, 0⟩).nfs41_lookup 0).status
      = ERROR_FILE_NOT_FOUND ∧
    (sample_env ERROR_FILE_NOT_FOUND NF4REG ⟨0, 0, 0⟩).nfs41_open.status = NFS4_OK ∧
    (handle_open (sample_env ERROR_FILE_NOT_FOUND NF4REG ⟨0, 0, 0⟩)
      (sample_upcall FILE_READ_DATA 0 FILE_CREATE)).status = NO_ERROR ∧
    (handle_open (sample_env ERROR_FILE_NOT_FOUND NF4REG ⟨0, 0, 0⟩)
      (sample_upcall FILE_READ_DATA 0 FILE_CREATE)).trace =
      [Event.nfs41_lookup ⟨sample_path, 2⟩,
        Event.nfs41_open 1 0 OPEN4_CREATE 0o644 0, Event.attach] ∧
    ((handle_open (sample_env ERROR_FILE_NOT_FOUND NF4REG ⟨0, 0, 0⟩)
      (sample_upcall FILE_READ_DATA 0 FILE_CREATE)).upcall.args.state.map
        (fun st => st.do_close)) = some true ∧
    (handle_open (sample_env ERROR_FILE_NOT_FOUND NF4REG ⟨0, 0, 0⟩)
      (sample_upcall FILE_READ_DATA 0 FILE_CREATE)).upcall.args.created = false := by
  decide

/-- C10, amended: for every open request with disposition CREATE, without
the directory-file option and with an access mask that requests read, write
or append data, whose lookup returns not-found and whose remote open (issued
once the execute check, if one is made, has passed) succeeds: the remote
open is issued with create flag OPEN4_CREATE, `handle_open` returns success
with the open state attached and do_close set, and the created flag of the
request is left as it was on entry. -/
theorem handle_open_create_new (env : Env) (upcall : nfs41_upcall)
    (hb : (create_open_state env upcall.args.path upcall.args.open_owner_id).state ≠ none)
    (hd : upcall.args.disposition = FILE_CREATE)
    (hnd : upcall.args.create_opts &&& FILE_DIRECTORY_FILE = 0)
    (hm : upcall.args.access_mask &&& FILE_READ_DATA ≠ 0 ∨
      upcall.args.access_mask &&& FILE_WRITE_DATA ≠ 0 ∨
      upcall.args.access_mask &&& FILE_APPEND_DATA ≠ 0)
    (hl : (env.nfs41_lookup 0).status = ERROR_FILE_NOT_FOUND)
    (hx : upcall.args.access_mask &&& FILE_EXECUTE ≠ 0 →
      (env.nfs41_lookup 0).file.fh.len ≠ 0 → check_execute_access env.nfs41_access = 0)
    (ho : env.nfs41_open.status = NFS4_OK) :
    (handle_open env upcall).status = NO_ERROR ∧
    (∃ allow deny, Event.nfs41_open allow deny OPEN4_CREATE upcall.args.mode 0
      ∈ (handle_open env upcall).trace) ∧
    Event.attach ∈ (handle_open env upcall).trace ∧
    (∃ st, (handle_open env upcall).upcall.args.state = some st ∧ st.do_close = true) ∧
    (handle_open env upcall).upcall.args.created = upcall.args.created := by
  rcases create_open_state_cases env upcall.args.path upcall.args.open_owner_id with
    ⟨hn, _, _⟩ | ⟨st, hc, _⟩
  · exact absurd hn hb
  · have hsig : ¬ (upcall.args.disposition = FILE_CREATE ∧
        upcall.args.access_mask = (FILE_WRITE_ATTRIBUTES ||| SYNCHRONIZE ||| DELETE) ∧
        upcall.args.access_mode = 0 ∧
        upcall.args.create_opts &&& FILE_OPEN_REPARSE_POINT ≠ 0) := by
      rintro ⟨_, hmask, _, _⟩
      rw [hmask] at hm
      obtain ⟨h1, h2, h3⟩ := signature_mask_no_data
      rcases hm with h | h | h
      · exact h h1
      · exact h h2
      · exact h h3
    have hlk : do_lookup NF4REG upcall.args.access_mask upcall.args.disposition = false := by
      unfold do_lookup
      have hne : ¬ NF4REG = NF4DIR := by decide
      have hany : upcall.args.access_mask &&& FILE_READ_DATA ≠ 0 ∨
          upcall.args.access_mask &&& FILE_WRITE_DATA ≠ 0 ∨
          upcall.args.access_mask &&& FILE_APPEND_DATA ≠ 0 ∨
          upcall.args.access_mask &&& FILE_EXECUTE ≠ 0 := by
        rcases hm with h | h | h
        · exact Or.inl h
        · exact Or.inr (Or.inl h)
        · exact Or.inr (Or.inr (Or.inl h))
      rw [if_neg hne, if_pos hany]
    have hnr : ¬ (env.nfs41_lookup 0).status = ERROR_REPARSE := by
      rw [hl]; decide
    have hnz : ¬ (env.nfs41_lookup 0).status = NO_ERROR := by
      rw [hl]; decide
    have hmd : map_disposition_2_nfsopen upcall.args.disposition
        ((ERROR_FILE_NOT_FOUND : Nat) : Int) 0 upcall.last_error
        = ⟨NO_ERROR, OPEN4_CREATE, upcall.last_error⟩ := by
      rw [hd]; rfl
    have hA : ∀ (state : nfs41_open_state) (trace : List Event),
        state.file.fh.len = (env.nfs41_lookup 0).file.fh.len →
        (handle_open_create_or_open env upcall state
          ((ERROR_FILE_NOT_FOUND : Nat) : Int) trace).status = NO_ERROR ∧
        (∃ allow deny, Event.nfs41_open allow deny OPEN4_CREATE upcall.args.mode 0
          ∈ (handle_open_create_or_open env upcall state
            ((ERROR_FILE_NOT_FOUND : Nat) : Int) trace).trace) ∧
        Event.attach ∈ (handle_open_create_or_open env upcall state
          ((ERROR_FILE_NOT_FOUND : Nat) : Int) trace).trace ∧
        (∃ st, (handle_open_create_or_open env upcall state
          ((ERROR_FILE_NOT_FOUND : Nat) : Int) trace).upcall.args.state = some st ∧
          st.do_close = true) ∧
        (handle_open_create_or_open env upcall state
          ((ERROR_FILE_NOT_FOUND : Nat) : Int) trace).upcall.args.created
          = upcall.args.created := by
      intro state trace hlen
      unfold handle_open_create_or_open
      simp only [hmd]
      by_cases hchk : upcall.args.access_mask &&& FILE_EXECUTE ≠ 0 ∧ state.file.fh.len ≠ 0
      · have hxx := hx hchk.1 (hlen ▸ hchk.2)
        simp [hchk, hxx, hnd, ho, attach_state, NO_ERROR, NFS4_OK]
        exact ⟨_, _, Or.inr ⟨rfl, rfl⟩⟩
      · simp [hchk, hnd, ho, attach_state, NO_ERROR, NFS4_OK]
        exact ⟨_, _, Or.inr ⟨rfl, rfl⟩⟩
    have hT : ∀ (state : nfs41_open_state) (trace : List Event),
        handle_open_typed env upcall state (env.nfs41_lookup 0) trace =
          handle_open_dispatch env upcall state (env.nfs41_lookup 0).info
            (env.nfs41_lookup 0).status trace := by
      intro state trace
      unfold handle_open_typed
      simp only [hnz, if_false]
      simp [hl]
    have hD : ∀ (state : nfs41_open_state) (info : nfs41_file_info) (status : Int)
        (trace : List Event), state.type = NF4REG →
        handle_open_dispatch env upcall state info status trace =
          handle_open_create_or_open env upcall state status trace := by
      intro state info status trace hty
      unfold handle_open_dispatch
      simp only [hsig, if_false, hty, hlk]
      simp
    unfold handle_open
    simp only [hc, ne_eq, not_true_eq_false, if_false, List.nil_append, hnr]
    rw [hT, hD _ _ _ _ (by simp [hnd]), hl]
    exact hA _ _ rfl

/-- Witness of C10, amended: the sample request of the counterexample. -/
theorem handle_open_create_new_witness :
    (handle_open (sample_env ERROR_FILE_NOT_FOUND NF4REG ⟨0, 0, 0⟩)
      (sample_upcall FILE_READ_DATA 0 FILE_CREATE)).status = NO_ERROR ∧
    (∃ allow deny, Event.nfs41_open allow deny OPEN4_CREATE
        (sample_upcall FILE_READ_DATA 0 FILE_CREATE).args.mode 0
      ∈ (handle_open (sample_env ERROR_FILE_NOT_FOUND NF4REG ⟨0, 0, 0⟩)
        (sample_upcall FILE_READ_DATA 0 FILE_CREATE)).trace) ∧
    Event.attach ∈ (handle_open (sample_env ERROR_FILE_NOT_FOUND NF4REG ⟨0, 0, 0⟩)
      (sample_upcall FILE_READ_DATA 0 FILE_CREATE)).trace ∧
    (∃ st, (handle_open (sample_env ERROR_FILE_NOT_FOUND NF4REG ⟨0, 0, 0⟩)
      (sample_upcall FILE_READ_DATA 0 FILE_CREATE)).upcall.args.state = some st ∧
      st.do_close = true) ∧
    (handle_open (sample_env ERROR_FILE_NOT_FOUND NF4REG ⟨0, 0, 0⟩)
      (sample_upcall FILE_READ_DATA 0 FILE_CREATE)).upcall.args.created =
      (sample_upcall FILE_READ_DATA 0 FILE_CREATE).args.created :=
  handle_open_create_new (sample_env ERROR_FILE_NOT_FOUND NF4REG ⟨0, 0, 0⟩)
    (sample_upcall FILE_READ_DATA 0 FILE_CREATE) (by decide) (by decide) (by decide)
    (by decide) (by decide) (by decide) (by decide)

/-! ## Paths through the open orchestrator -/

/-- Once the state is built and the first lookup does not signal a reparse,
`handle_open` is the type check on the state the lookup wrote. -/
theorem handle_open_after_lookup (env : Env) (upcall : nfs41_upcall)
    (st : nfs41_open_state)
    (hc : create_open_state env upcall.args.path upcall.args.open_owner_id
      = ⟨0, some st, []⟩)
    (hr : (env.nfs41_lookup 0).status ≠ ERROR_REPARSE) :
    handle_open env upcall =
      handle_open_typed env upcall (state_after_lookup env upcall st)
        (env.nfs41_lookup 0) [Event.nfs41_lookup st.path] := by
  unfold handle_open state_after_lookup
  simp only [hc, ne_eq, not_true_eq_false, if_false, List.nil_append]
  rw [if_neg hr]

/-- A built state is what `create_open_state` returned with status 0 and an
empty trace. -/
theorem create_open_state_built (env : Env) (path : List Nat) (open_owner_id : Nat)
    (hb : (create_open_state env path open_owner_id).state ≠ none) :
    ∃ st, create_open_state env path open_owner_id = ⟨0, some st, []⟩ ∧
      st.do_close = false := by
  rcases create_open_state_cases env path open_owner_id with ⟨hn, _, _⟩ | h
  · exact absurd hn hb
  · exact h

/-- The type check lets a found entry pass to lines 325-390 when it is
neither a directory opened with the non-directory option nor a symlink: the
state takes the type the lookup returned. -/
theorem handle_open_typed_found (env : Env) (upcall : nfs41_upcall)
    (state : nfs41_open_state) (l : LookupAnswer) (trace : List Event)
    (hl : l.status = NO_ERROR)
    (hdir : ¬ (l.info.type = NF4DIR ∧ upcall.args.create_opts &&& FILE_NON_DIRECTORY_FILE ≠ 0))
    (hlnk : l.info.type ≠ NF4LNK) :
    handle_open_typed env upcall state l trace =
      handle_open_dispatch env upcall { state with type := l.info.type } l.info
        l.status trace := by
  unfold handle_open_typed
  simp only []
  rw [if_pos hl]
  split_ifs <;>
    first
    | rfl
    | exact absurd ⟨‹l.info.type = NF4DIR›, ‹_›⟩ hdir

/-- The type check ends the open with ERROR_ACCESS_DENIED when the found
entry is a directory and the request carries the non-directory option. -/
theorem handle_open_typed_dir_as_file (env : Env) (upcall : nfs41_upcall)
    (state : nfs41_open_state) (l : LookupAnswer) (trace : List Event)
    (hl : l.status = NO_ERROR) (ht : l.info.type = NF4DIR)
    (hopt : upcall.args.create_opts &&& FILE_NON_DIRECTORY_FILE ≠ 0) :
    handle_open_typed env upcall state l trace =
      out_free_state ERROR_ACCESS_DENIED upcall trace := by
  unfold handle_open_typed
  simp only []
  rw [if_pos hl, if_pos ht, if_pos hopt]

/-- A found symlink opened with the reparse-point option is probed with
`nfs41_symlink_follow` and passes to lines 325-390. -/
theorem handle_open_typed_symlink_itself (env : Env) (upcall : nfs41_upcall)
    (state : nfs41_open_state) (l : LookupAnswer) (trace : List Event)
    (hl : l.status = NO_ERROR) (ht : l.info.type = NF4LNK)
    (hopt : upcall.args.create_opts &&& FILE_OPEN_REPARSE_POINT ≠ 0) :
    handle_open_typed env upcall state l trace =
      handle_open_dispatch env upcall { state with type := l.info.type }
        (if env.nfs41_symlink_follow.status = NO_ERROR ∧
            env.nfs41_symlink_follow.info.type = NF4DIR then
          { l.info with symlink_dir := true } else l.info)
        l.status (trace ++ [Event.nfs41_symlink_follow]) := by
  have h1 : ¬ l.info.type = NF4DIR := by rw [ht]; decide
  have h2 : ¬ l.info.type = NF4REG := by rw [ht]; decide
  unfold handle_open_typed
  simp only []
  rw [if_pos hl, if_neg h1, if_neg h2, if_pos ht, if_pos hopt]
  split_ifs <;> rfl

/-- A found symlink opened without the reparse-point option ends the open at
the type check: the reparse is signalled, the target is fetched into
`args.symlink` and the status of the fetch is returned. -/
theorem handle_open_typed_symlink_target (env : Env) (upcall : nfs41_upcall)
    (state : nfs41_open_state) (l : LookupAnswer) (trace : List Event)
    (hl : l.status = NO_ERROR) (ht : l.info.type = NF4LNK)
    (hopt : upcall.args.create_opts &&& FILE_OPEN_REPARSE_POINT = 0) :
    handle_open_typed env upcall state l trace =
      out_free_state (env.nfs41_symlink_target 0).status
        { upcall with
          last_error := ERROR_REPARSE
          args := { upcall.args with
            symlink_embedded := false
            symlink := (env.nfs41_symlink_target 0).target } }
        (trace ++ [Event.nfs41_symlink_target]) := by
  have h1 : ¬ l.info.type = NF4DIR := by rw [ht]; decide
  have h2 : ¬ l.info.type = NF4REG := by rw [ht]; decide
  have h3 : ¬ upcall.args.create_opts &&& FILE_OPEN_REPARSE_POINT ≠ 0 := by
    simpa using hopt
  unfold handle_open_typed
  simp only []
  rw [if_pos hl, if_neg h1, if_neg h2, if_pos ht, if_neg h3]

/-- A lookup that did not find the entry passes to lines 325-390 with the
guessed type. -/
theorem handle_open_typed_not_found (env : Env) (upcall : nfs41_upcall)
    (state : nfs41_open_state) (l : LookupAnswer) (trace : List Event)
    (hl : l.status = ERROR_FILE_NOT_FOUND) :
    handle_open_typed env upcall state l trace =
      handle_open_dispatch env upcall state l.info l.status trace := by
  have h1 : ¬ l.status = NO_ERROR := by rw [hl]; decide
  have h2 : ¬ l.status ≠ ERROR_FILE_NOT_FOUND := by simpa using hl
  unfold handle_open_typed
  simp only []
  rw [if_neg h1, if_neg h2]

/-- A lookup failure other than not-found ends the open with that status. -/
theorem handle_open_typed_lookup_error (env : Env) (upcall : nfs41_upcall)
    (state : nfs41_open_state) (l : LookupAnswer) (trace : List Event)
    (h1 : l.status ≠ NO_ERROR) (h2 : l.status ≠ ERROR_FILE_NOT_FOUND) :
    handle_open_typed env upcall state l trace =
      out_free_state l.status upcall trace := by
  unfold handle_open_typed
  simp only []
  rw [if_neg h1, if_pos h2]

/-- The deferred-create branch of lines 325-341. -/
theorem handle_open_dispatch_signature (env : Env) (upcall : nfs41_upcall)
    (state : nfs41_open_state) (info : nfs41_file_info) (status : Int)
    (trace : List Event) (hsig : symlink_create_signature upcall.args) :
    handle_open_dispatch env upcall state info status trace =
      if (map_disposition_2_nfsopen upcall.args.disposition status 0
          upcall.last_error).status ≠ 0 then
        out_free_state
          (map_disposition_2_nfsopen upcall.args.disposition status 0
            upcall.last_error).status
          { upcall with
            last_error := (map_disposition_2_nfsopen upcall.args.disposition status 0
              upcall.last_error).last_error }
          trace
      else
        attach_state
          { upcall with
            last_error := (map_disposition_2_nfsopen upcall.args.disposition status 0
              upcall.last_error).last_error }
          { state with
            file := { state.file with
              fh := { state.file.fh with superblock := state.parent.fh.superblock } } }
          trace := by
  unfold symlink_create_signature at hsig
  unfold handle_open_dispatch
  simp only []
  rw [if_pos hsig]

/-- The lookup-only branch of lines 342-351. -/
theorem handle_open_dispatch_lookup_only (env : Env) (upcall : nfs41_upcall)
    (state : nfs41_open_state) (info : nfs41_file_info) (status : Int)
    (trace : List Event) (hsig : ¬ symlink_create_signature upcall.args)
    (hlk : do_lookup state.type upcall.args.access_mask upcall.args.disposition = true) :
    handle_open_dispatch env upcall state info status trace =
      if status ≠ 0 then
        out_free_state status upcall trace
      else
        attach_state
          { upcall with
            args := { upcall.args with
              basic_info := env.nfs_to_basic_info info
              std_info := env.nfs_to_standard_info info
              mode := info.mode
              changeattr := info.change } }
          state trace := by
  unfold symlink_create_signature at hsig
  unfold handle_open_dispatch
  simp only []
  rw [if_neg hsig, if_pos hlk]

/-- The create-or-open branch of lines 352-389 is taken outside the
signature when `do_lookup` is false. -/
theorem handle_open_dispatch_create_or_open (env : Env) (upcall : nfs41_upcall)
    (state : nfs41_open_state) (info : nfs41_file_info) (status : Int)
    (trace : List Event) (hsig : ¬ symlink_create_signature upcall.args)
    (hlk : do_lookup state.type upcall.args.access_mask upcall.args.disposition = false) :
    handle_open_dispatch env upcall state info status trace =
      handle_open_create_or_open env upcall state status trace := by
  unfold symlink_create_signature at hsig
  have hlk' : ¬ do_lookup state.type upcall.args.access_mask upcall.args.disposition = true := by
    rw [hlk]; decide
  unfold handle_open_dispatch
  simp only []
  rw [if_neg hsig, if_neg hlk']

/-- A hard error of the resolver ends the create-or-open branch before any
remote call. -/
theorem handle_open_create_or_open_hard_error (env : Env) (upcall : nfs41_upcall)
    (state : nfs41_open_state) (status : Int) (trace : List Event)
    (hm : (map_disposition_2_nfsopen upcall.args.disposition status 0
      upcall.last_error).status ≠ 0) :
    handle_open_create_or_open env upcall state status trace =
      out_free_state
        (map_disposition_2_nfsopen upcall.args.disposition status 0
          upcall.last_error).status
        { upcall with
          last_error := (map_disposition_2_nfsopen upcall.args.disposition status 0
            upcall.last_error).last_error }
        trace := by
  unfold handle_open_create_or_open
  simp only []
  rw [if_pos hm]

/-- C11, as stated, fails: disposition CREATE with an access mask that
requests no data access, outside the symlink-creation signature, on an
existing regular file: `handle_open` returns NO_ERROR and hands the state
off. -/
theorem handle_open_create_existing_attribute_only :
    (sample_upcall 0 0 FILE_CREATE).args.disposition = FILE_CREATE ∧
    ((sample_env 0 NF4REG ⟨0, 0, 0⟩).nfs41_lookup 0).status = NO_ERROR ∧
    ((sample_env 0 NF4REG ⟨0, 0, 0⟩).nfs41_lookup 0).info.type = NF4REG ∧
    (handle_open (sample_env 0 NF4REG ⟨0, 0, 0⟩) (sample_upcall 0 0 FILE_CREATE)).status
      = NO_ERROR ∧
    (handle_open (sample_env 0 NF4REG ⟨0, 0, 0⟩) (sample_upcall 0 0 FILE_CREATE)).trace
      = [Event.nfs41_lookup ⟨sample_path, 2⟩, Event.attach] ∧
    (handle_open (sample_env 0 NF4REG ⟨0, 0, 0⟩)
      (sample_upcall 0 0 FILE_CREATE)).upcall.args.state ≠ none := by
  decide

/-- C11, amended: for every open request with disposition CREATE whose
lookup finds an existing regular file, and which either matches the
symlink-creation signature or requests read, write, append or execute
access, `handle_open` returns ERROR_FILE_EXISTS, releases the state once,
attaches no handle and issues no remote call other than the lookup,
whatever the access mode. -/
theorem handle_open_create_existing (env : Env) (upcall : nfs41_upcall)
    (hb : (create_open_state env upcall.args.path upcall.args.open_owner_id).state ≠ none)
    (hd : upcall.args.disposition = FILE_CREATE)
    (hl : (env.nfs41_lookup 0).status = NO_ERROR)
    (ht : (env.nfs41_lookup 0).info.type = NF4REG)
    (hm : symlink_create_signature upcall.args ∨
      upcall.args.access_mask &&& FILE_READ_DATA ≠ 0 ∨
      upcall.args.access_mask &&& FILE_WRITE_DATA ≠ 0 ∨
      upcall.args.access_mask &&& FILE_APPEND_DATA ≠ 0 ∨
      upcall.args.access_mask &&& FILE_EXECUTE ≠ 0) :
    (handle_open env upcall).status = ERROR_FILE_EXISTS ∧
    (∃ p, (handle_open env upcall).trace = [Event.nfs41_lookup p, Event.free]) ∧
    (handle_open env upcall).upcall.args.state = upcall.args.state := by
  obtain ⟨st, hc, _⟩ := create_open_state_built env _ _ hb
  have hr : (env.nfs41_lookup 0).status ≠ ERROR_REPARSE := by rw [hl]; decide
  have hne : ¬ NF4REG = NF4DIR := by decide
  have hmd : map_disposition_2_nfsopen upcall.args.disposition
      (env.nfs41_lookup 0).status 0 upcall.last_error
      = ⟨ERROR_FILE_EXISTS, 0, upcall.last_error⟩ := by
    rw [hd, hl]; rfl
  have hms : (map_disposition_2_nfsopen upcall.args.disposition
      (env.nfs41_lookup 0).status 0 upcall.last_error).status ≠ 0 := by
    rw [hmd]; simp [ERROR_FILE_EXISTS]
  rw [handle_open_after_lookup env upcall st hc hr,
    handle_open_typed_found env upcall _ _ _ hl (by rw [ht]; simp [hne])
      (by rw [ht]; decide)]
  by_cases hsig : symlink_create_signature upcall.args
  · rw [handle_open_dispatch_signature env upcall _ _ _ _ hsig, if_pos hms, hmd]
    exact ⟨rfl, ⟨_, rfl⟩, rfl⟩
  · have hmask : upcall.args.access_mask &&& FILE_READ_DATA ≠ 0 ∨
        upcall.args.access_mask &&& FILE_WRITE_DATA ≠ 0 ∨
        upcall.args.access_mask &&& FILE_APPEND_DATA ≠ 0 ∨
        upcall.args.access_mask &&& FILE_EXECUTE ≠ 0 := by
      rcases hm with h | h
      · exact absurd h hsig
      · exact h
    have hlk : do_lookup (env.nfs41_lookup 0).info.type upcall.args.access_mask
        upcall.args.disposition = false := by
      unfold do_lookup
      rw [ht, if_neg hne, if_pos hmask]
    rw [handle_open_dispatch_create_or_open env upcall _ _ _ _ hsig hlk,
      handle_open_create_or_open_hard_error env upcall _ _ _ hms, hmd]
    exact ⟨rfl, ⟨_, rfl⟩, rfl⟩

/-- Witness of C11, amended: CREATE with read access on an existing regular
file. -/
theorem handle_open_create_existing_witness :
    (handle_open (sample_env 0 NF4REG ⟨0, 0, 0⟩)
      (sample_upcall FILE_READ_DATA 0 FILE_CREATE)).status = ERROR_FILE_EXISTS ∧
    (∃ p, (handle_open (sample_env 0 NF4REG ⟨0, 0, 0⟩)
      (sample_upcall FILE_READ_DATA 0 FILE_CREATE)).trace
        = [Event.nfs41_lookup p, Event.free]) ∧
    (handle_open (sample_env 0 NF4REG ⟨0, 0, 0⟩)
      (sample_upcall FILE_READ_DATA 0 FILE_CREATE)).upcall.args.state
      = (sample_upcall FILE_READ_DATA 0 FILE_CREATE).args.state :=
  handle_open_create_existing (sample_env 0 NF4REG ⟨0, 0, 0⟩)
    (sample_upcall FILE_READ_DATA 0 FILE_CREATE) (by decide) (by decide) (by decide)
    (by decide) (Or.inr (Or.inl (by decide)))

/-! ## The order of the calls of the close handler -/

/-- C12: the calls of `handle_close` occur in this order: the layout release,
issued exactly when the state is a regular file; then, when remove is set,
the silly rename, issued exactly when renamed is set, followed by the remote
remove against the parent and the (possibly renamed) name; then the remote
close, issued exactly when do_close is set, whatever the remove returned;
then exactly one release of the open state. -/
theorem handle_close_order (env : Env) (args : close_upcall_args) :
    (handle_close env args).trace =
      (if args.state.type = NF4REG then [Event.pnfs_open_state_close args.remove] else []) ++
      (if args.remove = true then
        (if args.renamed = true then [Event.create_silly_rename] else []) ++
          [Event.nfs41_remove args.state.parent
            (if args.renamed = true then
              env.create_silly_rename args.state.path args.state.file.fh
                args.state.file.name
            else args.state.file.name)]
       else []) ++
      (if args.state.do_close = true then [Event.nfs41_close] else []) ++
      [Event.free] ∧
    count_free (handle_close env args).trace = 1 := by
  unfold handle_close count_free
  simp only []
  by_cases h1 : args.state.type = NF4REG <;> by_cases h2 : args.remove = true <;>
    by_cases h3 : args.renamed = true <;> by_cases h4 : args.state.do_close = true <;>
    simp [h1, h2, h3, h4, List.count_cons]

/-! ## The type check -/

/-- C14: when the lookup succeeds, a directory opened with
FILE_NON_DIRECTORY_FILE fails with ERROR_ACCESS_DENIED and the only remote
call is the lookup; a regular file opened with FILE_DIRECTORY_FILE raises no
error at the type check: the open continues at line 325 with the type of the
state, guessed as directory, replaced by regular file. -/
theorem handle_open_type_check (env : Env) (upcall : nfs41_upcall)
    (st : nfs41_open_state)
    (hc : create_open_state env upcall.args.path upcall.args.open_owner_id
      = ⟨0, some st, []⟩)
    (hl : (env.nfs41_lookup 0).status = NO_ERROR) :
    ((env.nfs41_lookup 0).info.type = NF4DIR →
      upcall.args.create_opts &&& FILE_NON_DIRECTORY_FILE ≠ 0 →
      (handle_open env upcall).status = ERROR_ACCESS_DENIED ∧
      (handle_open env upcall).trace = [Event.nfs41_lookup st.path, Event.free] ∧
      (handle_open env upcall).upcall = upcall) ∧
    ((env.nfs41_lookup 0).info.type = NF4REG →
      upcall.args.create_opts &&& FILE_DIRECTORY_FILE ≠ 0 →
      (state_after_lookup env upcall st).type = NF4DIR ∧
      handle_open env upcall =
        handle_open_dispatch env upcall
          { state_after_lookup env upcall st with type := NF4REG }
          (env.nfs41_lookup 0).info NO_ERROR [Event.nfs41_lookup st.path]) := by
  have hr : (env.nfs41_lookup 0).status ≠ ERROR_REPARSE := by rw [hl]; decide
  constructor
  · intro ht hopt
    rw [handle_open_after_lookup env upcall st hc hr,
      handle_open_typed_dir_as_file env upcall _ _ _ hl ht hopt]
    exact ⟨rfl, rfl, rfl⟩
  · intro ht hopt
    constructor
    · simp [state_after_lookup, hopt]
    · rw [handle_open_after_lookup env upcall st hc hr,
        handle_open_typed_found env upcall _ _ _ hl
          (by rw [ht]; intro h; exact absurd h.1 (by decide))
          (by rw [ht]; decide), ht, hl]

/-- Witness of C14: a directory is found and the request carries
FILE_NON_DIRECTORY_FILE. -/
theorem handle_open_type_check_witness :
    (handle_open (sample_env 0 NF4DIR ⟨0, 0, 0⟩)
      (sample_upcall FILE_READ_DATA FILE_NON_DIRECTORY_FILE FILE_OPEN)).status
      = ERROR_ACCESS_DENIED ∧
    (handle_open (sample_env 0 NF4DIR ⟨0, 0, 0⟩)
      (sample_upcall FILE_READ_DATA FILE_NON_DIRECTORY_FILE FILE_OPEN)).trace
      = [Event.nfs41_lookup ⟨sample_path, 2⟩, Event.free] ∧
    (handle_open (sample_env 0 NF4DIR ⟨0, 0, 0⟩)
      (sample_upcall FILE_READ_DATA FILE_NON_DIRECTORY_FILE FILE_OPEN)).upcall
      = sample_upcall FILE_READ_DATA FILE_NON_DIRECTORY_FILE FILE_OPEN :=
  (handle_open_type_check (sample_env 0 NF4DIR ⟨0, 0, 0⟩)
    (sample_upcall FILE_READ_DATA FILE_NON_DIRECTORY_FILE FILE_OPEN)
    sample_built_state rfl (by decide)).1 (by decide) (by decide)

/-! ## The deferred create of a symlink -/

/-- C15: for every open request matching the symlink-creation signature: if
the lookup found an entry that passes the type check, `handle_open` fails
with ERROR_FILE_EXISTS and releases the state; if the lookup returned
not-found, `handle_open` returns success with the state attached, issues no
remote call besides the lookup, leaves do_close clear and the created flag
as it was on entry, and sets the superblock of the file handle to that of
the parent. -/
theorem handle_open_deferred_create (env : Env) (upcall : nfs41_upcall)
    (st : nfs41_open_state)
    (hc : create_open_state env upcall.args.path upcall.args.open_owner_id
      = ⟨0, some st, []⟩)
    (hsig : symlink_create_signature upcall.args) :
    ((env.nfs41_lookup 0).status = NO_ERROR →
      ¬ ((env.nfs41_lookup 0).info.type = NF4DIR ∧
        upcall.args.create_opts &&& FILE_NON_DIRECTORY_FILE ≠ 0) →
      (handle_open env upcall).status = ERROR_FILE_EXISTS ∧
      count_free (handle_open env upcall).trace = 1 ∧
      Event.attach ∉ (handle_open env upcall).trace ∧
      (handle_open env upcall).upcall.args.state = upcall.args.state) ∧
    ((env.nfs41_lookup 0).status = ERROR_FILE_NOT_FOUND →
      (handle_open env upcall).status = NO_ERROR ∧
      (handle_open env upcall).trace = [Event.nfs41_lookup st.path, Event.attach] ∧
      (handle_open env upcall).upcall.args.created = upcall.args.created ∧
      ∃ st1, (handle_open env upcall).upcall.args.state = some st1 ∧
        st1.do_close = false ∧
        st1.parent = (env.nfs41_lookup 0).parent ∧
        st1.file.fh.superblock = st1.parent.fh.superblock) := by
  have hd : upcall.args.disposition = FILE_CREATE := hsig.1
  have hopt : upcall.args.create_opts &&& FILE_OPEN_REPARSE_POINT ≠ 0 := hsig.2.2.2
  have hdc : st.do_close = false := by
    rcases create_open_state_cases env upcall.args.path upcall.args.open_owner_id with
      ⟨hn, _, _⟩ | ⟨st0, hc0, hd0⟩
    · rw [hc] at hn; cases hn
    · rw [hc] at hc0
      simp only [CreateStateResult.mk.injEq, Option.some.injEq] at hc0
      rw [hc0.2.1]; exact hd0
  constructor
  · intro hl hdir
    have hr : (env.nfs41_lookup 0).status ≠ ERROR_REPARSE := by rw [hl]; decide
    have hmd : map_disposition_2_nfsopen upcall.args.disposition
        (env.nfs41_lookup 0).status 0 upcall.last_error
        = ⟨ERROR_FILE_EXISTS, 0, upcall.last_error⟩ := by
      rw [hd, hl]; rfl
    have hms : (map_disposition_2_nfsopen upcall.args.disposition
        (env.nfs41_lookup 0).status 0 upcall.last_error).status ≠ 0 := by
      rw [hmd]; simp [ERROR_FILE_EXISTS]
    rw [handle_open_after_lookup env upcall st hc hr]
    by_cases hlnk : (env.nfs41_lookup 0).info.type = NF4LNK
    · rw [handle_open_typed_symlink_itself env upcall _ _ _ hl hlnk hopt,
        handle_open_dispatch_signature env upcall _ _ _ _ hsig, if_pos hms, hmd]
      simp [out_free_state, count_free, List.count_cons]
    · rw [handle_open_typed_found env upcall _ _ _ hl hdir hlnk,
        handle_open_dispatch_signature env upcall _ _ _ _ hsig, if_pos hms, hmd]
      simp [out_free_state, count_free, List.count_cons]
  · intro hl
    have hr : (env.nfs41_lookup 0).status ≠ ERROR_REPARSE := by rw [hl]; decide
    have hmd : map_disposition_2_nfsopen upcall.args.disposition
        (env.nfs41_lookup 0).status 0 upcall.last_error
        = ⟨NO_ERROR, OPEN4_CREATE, upcall.last_error⟩ := by
      rw [hd, hl]; rfl
    have hms : ¬ (map_disposition_2_nfsopen upcall.args.disposition
        (env.nfs41_lookup 0).status 0 upcall.last_error).status ≠ 0 := by
      rw [hmd]; simp [NO_ERROR]
    rw [handle_open_after_lookup env upcall st hc hr,
      handle_open_typed_not_found env upcall _ _ _ hl,
      handle_open_dispatch_signature env upcall _ _ _ _ hsig, if_neg hms, hmd]
    refine ⟨rfl, rfl, rfl, _, rfl, ?_, rfl, rfl⟩
    simpa [state_after_lookup] using hdc

/-- Witness of C15: the signature on a name the lookup does not find. -/
theorem handle_open_deferred_create_witness :
    (handle_open (sample_env ERROR_FILE_NOT_FOUND NF4REG ⟨0, 0, 0⟩)
      (sample_upcall (FILE_WRITE_ATTRIBUTES ||| SYNCHRONIZE ||| DELETE)
        FILE_OPEN_REPARSE_POINT FILE_CREATE)).status = NO_ERROR ∧
    (handle_open (sample_env ERROR_FILE_NOT_FOUND NF4REG ⟨0, 0, 0⟩)
      (sample_upcall (FILE_WRITE_ATTRIBUTES ||| SYNCHRONIZE ||| DELETE)
        FILE_OPEN_REPARSE_POINT FILE_CREATE)).trace
      = [Event.nfs41_lookup sample_built_state.path, Event.attach] ∧
    (handle_open (sample_env ERROR_FILE_NOT_FOUND NF4REG ⟨0, 0, 0⟩)
      (sample_upcall (FILE_WRITE_ATTRIBUTES ||| SYNCHRONIZE ||| DELETE)
        FILE_OPEN_REPARSE_POINT FILE_CREATE)).upcall.args.created
      = (sample_upcall (FILE_WRITE_ATTRIBUTES ||| SYNCHRONIZE ||| DELETE)
        FILE_OPEN_REPARSE_POINT FILE_CREATE).args.created ∧
    ∃ st1, (handle_open (sample_env ERROR_FILE_NOT_FOUND NF4REG ⟨0, 0, 0⟩)
      (sample_upcall (FILE_WRITE_ATTRIBUTES ||| SYNCHRONIZE ||| DELETE)
        FILE_OPEN_REPARSE_POINT FILE_CREATE)).upcall.args.state = some st1 ∧
      st1.do_close = false ∧
      st1.parent = ((sample_env ERROR_FILE_NOT_FOUND NF4REG ⟨0, 0, 0⟩).nfs41_lookup 0).parent ∧
      st1.file.fh.superblock = st1.parent.fh.superblock :=
  (handle_open_deferred_create (sample_env ERROR_FILE_NOT_FOUND NF4REG ⟨0, 0, 0⟩)
    (sample_upcall (FILE_WRITE_ATTRIBUTES ||| SYNCHRONIZE ||| DELETE)
      FILE_OPEN_REPARSE_POINT FILE_CREATE)
    sample_built_state rfl (by unfold symlink_create_signature; decide)).2 (by decide)

/-! ## The lookup-only branch -/

/-- C16: for every open request outside the symlink-creation signature for
which `do_lookup` holds at line 342: if the lookup succeeded (and the entry
passed the type check), `handle_open` issues no remote create, open or
access call, returns success with the state attached, and fills basic info,
standard info, mode and change attribute from the info of the lookup (with
symlink_dir set when the entry is a symlink whose probed target is a
directory); if the lookup returned not-found, `handle_open` fails with
ERROR_FILE_NOT_FOUND, releases the state and writes nothing to the upcall,
whatever the disposition. -/
theorem handle_open_lookup_only (env : Env) (upcall : nfs41_upcall)
    (st : nfs41_open_state)
    (hc : create_open_state env upcall.args.path upcall.args.open_owner_id
      = ⟨0, some st, []⟩)
    (hsig : ¬ symlink_create_signature upcall.args) :
    ((env.nfs41_lookup 0).status = NO_ERROR →
      ¬ ((env.nfs41_lookup 0).info.type = NF4DIR ∧
        upcall.args.create_opts &&& FILE_NON_DIRECTORY_FILE ≠ 0) →
      ¬ ((env.nfs41_lookup 0).info.type = NF4LNK ∧
        upcall.args.create_opts &&& FILE_OPEN_REPARSE_POINT = 0) →
      do_lookup (env.nfs41_lookup 0).info.type upcall.args.access_mask
        upcall.args.disposition = true →
      (handle_open env upcall).status = NO_ERROR ∧
      ((handle_open env upcall).trace = [Event.nfs41_lookup st.path, Event.attach] ∨
        (handle_open env upcall).trace =
          [Event.nfs41_lookup st.path, Event.nfs41_symlink_follow, Event.attach]) ∧
      (∃ st1, (handle_open env upcall).upcall.args.state = some st1) ∧
      (handle_open env upcall).upcall.args.mode = (env.nfs41_lookup 0).info.mode ∧
      (handle_open env upcall).upcall.args.changeattr = (env.nfs41_lookup 0).info.change ∧
      ∃ info, (info = (env.nfs41_lookup 0).info ∨
          info = { (env.nfs41_lookup 0).info with symlink_dir := true }) ∧
        ((env.nfs41_lookup 0).info.type ≠ NF4LNK → info = (env.nfs41_lookup 0).info) ∧
        (handle_open env upcall).upcall.args.basic_info = env.nfs_to_basic_info info ∧
        (handle_open env upcall).upcall.args.std_info = env.nfs_to_standard_info info) ∧
    ((env.nfs41_lookup 0).status = ERROR_FILE_NOT_FOUND →
      do_lookup (state_after_lookup env upcall st).type upcall.args.access_mask
        upcall.args.disposition = true →
      (handle_open env upcall).status = ERROR_FILE_NOT_FOUND ∧
      (handle_open env upcall).trace = [Event.nfs41_lookup st.path, Event.free] ∧
      (handle_open env upcall).upcall = upcall) := by
  constructor
  · intro hl hdir hlnk hlk
    have hr : (env.nfs41_lookup 0).status ≠ ERROR_REPARSE := by rw [hl]; decide
    have hz : ¬ (env.nfs41_lookup 0).status ≠ 0 := by rw [hl]; decide
    rw [handle_open_after_lookup env upcall st hc hr]
    by_cases ht : (env.nfs41_lookup 0).info.type = NF4LNK
    · have hopt : upcall.args.create_opts &&& FILE_OPEN_REPARSE_POINT ≠ 0 :=
        fun h => hlnk ⟨ht, h⟩
      rw [handle_open_typed_symlink_itself env upcall _ _ _ hl ht hopt,
        handle_open_dispatch_lookup_only env upcall _ _ _ _ hsig hlk, if_neg hz]
      refine ⟨rfl, Or.inr rfl, ⟨_, rfl⟩, ?_, ?_, ?_⟩
      · simp only [attach_state]
        split_ifs <;> rfl
      · simp only [attach_state]
        split_ifs <;> rfl
      · by_cases hf : env.nfs41_symlink_follow.status = NO_ERROR ∧
            env.nfs41_symlink_follow.info.type = NF4DIR
        · refine ⟨{ (env.nfs41_lookup 0).info with symlink_dir := true }, Or.inr rfl,
            fun h => absurd ht h, ?_, ?_⟩
          · simp only [attach_state, if_pos hf]
          · simp only [attach_state, if_pos hf]
        · refine ⟨(env.nfs41_lookup 0).info, Or.inl rfl, fun _ => rfl, ?_, ?_⟩
          · simp only [attach_state, if_neg hf]
          · simp only [attach_state, if_neg hf]
    · rw [handle_open_typed_found env upcall _ _ _ hl hdir ht,
        handle_open_dispatch_lookup_only env upcall _ _ _ _ hsig hlk, if_neg hz]
      exact ⟨rfl, Or.inl rfl, ⟨_, rfl⟩, rfl, rfl, _, Or.inl rfl, fun _ => rfl, rfl, rfl⟩
  · intro hl hlk
    have hr : (env.nfs41_lookup 0).status ≠ ERROR_REPARSE := by rw [hl]; decide
    have hz : (env.nfs41_lookup 0).status ≠ 0 := by rw [hl]; decide
    rw [handle_open_after_lookup env upcall st hc hr,
      handle_open_typed_not_found env upcall _ _ _ hl,
      handle_open_dispatch_lookup_only env upcall _ _ _ _ hsig hlk, if_pos hz, hl]
    exact ⟨rfl, rfl, rfl⟩

/-- Witness of C16: disposition CREATE with an attribute-only access mask on
a name the lookup does not find fails with ERROR_FILE_NOT_FOUND. -/
theorem handle_open_lookup_only_witness :
    (handle_open (sample_env ERROR_FILE_NOT_FOUND NF4REG ⟨0, 0, 0⟩)
      (sample_upcall 0 0 FILE_CREATE)).status = ERROR_FILE_NOT_FOUND ∧
    (handle_open (sample_env ERROR_FILE_NOT_FOUND NF4REG ⟨0, 0, 0⟩)
      (sample_upcall 0 0 FILE_CREATE)).trace
      = [Event.nfs41_lookup sample_built_state.path, Event.free] ∧
    (handle_open (sample_env ERROR_FILE_NOT_FOUND NF4REG ⟨0, 0, 0⟩)
      (sample_upcall 0 0 FILE_CREATE)).upcall = sample_upcall 0 0 FILE_CREATE :=
  (handle_open_lookup_only (sample_env ERROR_FILE_NOT_FOUND NF4REG ⟨0, 0, 0⟩)
    (sample_upcall 0 0 FILE_CREATE) sample_built_state rfl
    (by unfold symlink_create_signature; decide)).2 (by decide) (by decide)

/-! ## The reparse report -/

/-- The loop adds only target fetches and lookups to the trace. -/
theorem reparse_loop_events (env : Env) :
    ∀ (n depth : Nat) (state : nfs41_open_state) (trace : List Event),
      env.NFS41_MAX_SYMLINK_DEPTH + 1 - depth = n →
      ∃ ex, (reparse_loop env depth state trace).trace = trace ++ ex ∧
        ∀ e ∈ ex, e = Event.nfs41_symlink_target ∨ is_lookup e = true := by
  intro n
  induction n with
  | zero =>
    intro depth state trace hn
    rw [reparse_loop]
    have h : depth + 1 > env.NFS41_MAX_SYMLINK_DEPTH := by omega
    rw [dif_pos h]
    exact ⟨[], by simp [ReparseOutcome.trace], by simp⟩
  | succ n ih =>
    intro depth state trace hn
    rw [reparse_loop]
    by_cases h : depth + 1 > env.NFS41_MAX_SYMLINK_DEPTH
    · rw [dif_pos h]
      exact ⟨[], by simp [ReparseOutcome.trace], by simp⟩
    · rw [dif_neg h]
      by_cases ht : (env.nfs41_symlink_target depth).status = 0
      · by_cases hl : (env.nfs41_lookup (depth + 1)).status = ERROR_REPARSE
        · simp only [ht, hl, ne_eq, not_true_eq_false, if_false, if_true]
          obtain ⟨ex, hex, hev⟩ := ih (depth + 1)
            { state with
              path := (env.nfs41_symlink_target depth).target
              parent := (env.nfs41_lookup (depth + 1)).parent
              session := (env.nfs41_lookup (depth + 1)).session }
            (trace ++ [Event.nfs41_symlink_target] ++
              [Event.nfs41_lookup (env.nfs41_symlink_target depth).target]) (by omega)
          refine ⟨[Event.nfs41_symlink_target,
            Event.nfs41_lookup (env.nfs41_symlink_target depth).target] ++ ex, ?_, ?_⟩
          · rw [hex]; simp
          · intro e he
            simp only [List.cons_append, List.nil_append, List.mem_cons] at he
            rcases he with he | he | he
            · exact Or.inl he
            · right; rw [he]; rfl
            · exact hev e he
        · simp only [ht, hl, ne_eq, not_true_eq_false, if_false]
          refine ⟨[Event.nfs41_symlink_target,
            Event.nfs41_lookup (env.nfs41_symlink_target depth).target], ?_, ?_⟩
          · simp [ReparseOutcome.trace]
          · intro e he
            simp only [List.mem_cons, List.mem_singleton, List.not_mem_nil, or_false] at he
            rcases he with he | he
            · exact Or.inl he
            · right; rw [he]; rfl
      · simp only [ht, ne_eq, not_false_eq_true, if_true]
        refine ⟨[Event.nfs41_symlink_target], ?_, ?_⟩
        · simp [ReparseOutcome.trace]
        · intro e he
          simp only [List.mem_singleton] at he
          exact Or.inl he

/-- The loop never fails with status 0. -/
theorem reparse_loop_failed_ne_zero (env : Env) :
    ∀ (n depth : Nat) (state : nfs41_open_state) (trace : List Event),
      env.NFS41_MAX_SYMLINK_DEPTH + 1 - depth = n →
      ∀ status tr, reparse_loop env depth state trace = .failed status tr → status ≠ 0 := by
  intro n
  induction n with
  | zero =>
    intro depth state trace hn status tr
    rw [reparse_loop]
    have h : depth + 1 > env.NFS41_MAX_SYMLINK_DEPTH := by omega
    rw [dif_pos h]
    intro heq
    cases heq
    decide
  | succ n ih =>
    intro depth state trace hn status tr
    rw [reparse_loop]
    by_cases h : depth + 1 > env.NFS41_MAX_SYMLINK_DEPTH
    · rw [dif_pos h]
      intro heq
      cases heq
      decide
    · rw [dif_neg h]
      by_cases ht : (env.nfs41_symlink_target depth).status = 0
      · by_cases hl : (env.nfs41_lookup (depth + 1)).status = ERROR_REPARSE
        · simp only [ht, hl, ne_eq, not_true_eq_false, if_false, if_true]
          exact ih (depth + 1) _ _ (by omega) status tr
        · simp only [ht, hl, ne_eq, not_true_eq_false, if_false]
          intro heq
          cases heq
      · simp only [ht, ne_eq, not_false_eq_true, if_true]
        intro heq
        cases heq
        exact ht

/-- A target fetch that fails inside the loop, after lookups that signalled
a reparse and fetches that succeeded, ends the loop with the status of that
fetch. -/
theorem reparse_loop_fetch_fails (env : Env) :
    ∀ (n depth : Nat) (state : nfs41_open_state) (trace : List Event) (j : Nat),
      j = depth + n → j < env.NFS41_MAX_SYMLINK_DEPTH →
      (∀ k, depth < k → k ≤ j → (env.nfs41_lookup k).status = ERROR_REPARSE) →
      (∀ k, depth ≤ k → k < j → (env.nfs41_symlink_target k).status = 0) →
      (env.nfs41_symlink_target j).status ≠ 0 →
      ∃ tr, reparse_loop env depth state trace
        = .failed (env.nfs41_symlink_target j).status tr := by
  intro n
  induction n with
  | zero =>
    intro depth state trace j hj hmax _ _ hfail
    have hjd : j = depth := by omega
    subst hjd
    rw [reparse_loop]
    have h : ¬ j + 1 > env.NFS41_MAX_SYMLINK_DEPTH := by omega
    rw [dif_neg h]
    simp only [hfail, ne_eq, not_false_eq_true, if_true]
    exact ⟨_, rfl⟩
  | succ n ih =>
    intro depth state trace j hj hmax hsig hfetch hfail
    rw [reparse_loop]
    have h : ¬ depth + 1 > env.NFS41_MAX_SYMLINK_DEPTH := by omega
    have ht := hfetch depth (le_refl _) (by omega)
    have hl := hsig (depth + 1) (by omega) (by omega)
    rw [dif_neg h]
    simp only [ht, hl, ne_eq, not_true_eq_false, if_false, if_true]
    exact ih (depth + 1) _ _ j (by omega) hmax
      (fun k hk1 hk2 => hsig k (by omega) hk2)
      (fun k hk1 hk2 => hfetch k (by omega) hk2) hfail

/-- After a first lookup that signals a reparse, `handle_open` is the exit
through `out_free_state` on the outcome of the loop. -/
theorem handle_open_reparse_branch (env : Env) (upcall : nfs41_upcall)
    (st : nfs41_open_state)
    (hc : create_open_state env upcall.args.path upcall.args.open_owner_id
      = ⟨0, some st, []⟩)
    (h0 : (env.nfs41_lookup 0).status = ERROR_REPARSE) :
    handle_open env upcall =
      match reparse_loop env 0 (state_after_lookup env upcall st)
          [Event.nfs41_lookup st.path] with
      | .failed status trace => out_free_state status upcall trace
      | .resolved state trace =>
        out_free_state NO_ERROR
          { upcall with
            last_error := ERROR_REPARSE
            args := { upcall.args with symlink := state.path, symlink_embedded := true } }
          trace := by
  unfold handle_open state_after_lookup
  simp only [hc, ne_eq, not_true_eq_false, if_false, List.nil_append]
  rw [if_pos h0]

/-- C17: whenever the first lookup of `handle_open` signals a reparse, the
only calls issued afterwards are target fetches and lookups, followed by one
release of the state; if the chain resolves within the depth limit,
`handle_open` returns NO_ERROR and changes the upcall only in last_error =
ERROR_REPARSE, symlink_embedded = TRUE and args.symlink = the rewritten path
(the last fetched target); and a target fetch that fails inside the loop
ends the open with the status of that fetch. -/
theorem handle_open_reparse_report (env : Env) (upcall : nfs41_upcall)
    (st : nfs41_open_state)
    (hc : create_open_state env upcall.args.path upcall.args.open_owner_id
      = ⟨0, some st, []⟩)
    (h0 : (env.nfs41_lookup 0).status = ERROR_REPARSE) :
    (∀ N, 1 ≤ N → N ≤ env.NFS41_MAX_SYMLINK_DEPTH →
      (∀ k, k < N → (env.nfs41_lookup k).status = ERROR_REPARSE) →
      (env.nfs41_lookup N).status ≠ ERROR_REPARSE →
      (∀ k, k < N → (env.nfs41_symlink_target k).status = 0) →
      (handle_open env upcall).status = NO_ERROR ∧
      (handle_open env upcall).upcall =
        { upcall with
          last_error := ERROR_REPARSE
          args := { upcall.args with
            symlink := (env.nfs41_symlink_target (N - 1)).target
            symlink_embedded := true } }) ∧
    ((∃ ex, (handle_open env upcall).trace
        = [Event.nfs41_lookup st.path] ++ ex ++ [Event.free] ∧
      ∀ e ∈ ex, e = Event.nfs41_symlink_target ∨ is_lookup e = true)) ∧
    (∀ j, j < env.NFS41_MAX_SYMLINK_DEPTH →
      (∀ k, k ≤ j → (env.nfs41_lookup k).status = ERROR_REPARSE) →
      (∀ k, k < j → (env.nfs41_symlink_target k).status = 0) →
      (env.nfs41_symlink_target j).status ≠ 0 →
      (handle_open env upcall).status = (env.nfs41_symlink_target j).status ∧
      (handle_open env upcall).upcall = upcall) := by
  rw [handle_open_reparse_branch env upcall st hc h0]
  refine ⟨?_, ?_, ?_⟩
  · intro N hN1 hN hsig hstop hfetch
    obtain ⟨st1, tr1, hres, hpath⟩ := reparse_loop_resolved env (N - 1) 0
      (state_after_lookup env upcall st) [Event.nfs41_lookup st.path] N (by omega) hN
      (fun k _ hk => hsig k hk) hstop (fun k _ hk => hfetch k hk)
    rw [hres]
    refine ⟨rfl, ?_⟩
    simp only [out_free_state, hpath]
  · obtain ⟨ex, hex, hev⟩ := reparse_loop_events env _ 0
      (state_after_lookup env upcall st) [Event.nfs41_lookup st.path] rfl
    revert hex
    cases reparse_loop env 0 (state_after_lookup env upcall st)
        [Event.nfs41_lookup st.path] with
    | failed s tr =>
      intro hex
      simp only [ReparseOutcome.trace] at hex
      exact ⟨ex, by simp [out_free_state, hex], hev⟩
    | resolved s tr =>
      intro hex
      simp only [ReparseOutcome.trace] at hex
      exact ⟨ex, by simp [out_free_state, hex], hev⟩
  · intro j hj hsig hfetch hfail
    obtain ⟨tr, hres⟩ := reparse_loop_fetch_fails env j 0
      (state_after_lookup env upcall st) [Event.nfs41_lookup st.path] j (by omega) hj
      (fun k _ hk => hsig k hk) (fun k _ hk => hfetch k hk) hfail
    rw [hres]
    exact ⟨rfl, rfl⟩

/-- Witness of C17: two lookups signal a reparse, the third finds the entry;
the upcall gets the reparse signal and the second fetched target. -/
theorem handle_open_reparse_report_witness :
    (handle_open (sample_chain_env 2) (sample_upcall FILE_READ_DATA 0 FILE_OPEN)).status
      = NO_ERROR ∧
    (handle_open (sample_chain_env 2) (sample_upcall FILE_READ_DATA 0 FILE_OPEN)).upcall =
      { sample_upcall FILE_READ_DATA 0 FILE_OPEN with
        last_error := ERROR_REPARSE
        args := { (sample_upcall FILE_READ_DATA 0 FILE_OPEN).args with
          symlink := ((sample_chain_env 2).nfs41_symlink_target (2 - 1)).target
          symlink_embedded := true } } :=
  (handle_open_reparse_report (sample_chain_env 2)
    (sample_upcall FILE_READ_DATA 0 FILE_OPEN) sample_built_state rfl (by decide)).1 2
    (by decide) (by decide) (by decide) (by decide) (by decide)

/-- C19: inside the reparse loop the status of the last lookup is discarded
once it is not ERROR_REPARSE: whatever that status `s` is, a failure
included, `handle_open` returns NO_ERROR with last_error = ERROR_REPARSE and
the rewritten path as the embedded symlink target. -/
theorem handle_open_reparse_discards_last_status (env : Env) (upcall : nfs41_upcall)
    (st : nfs41_open_state) (N : Nat) (s : Int)
    (hc : create_open_state env upcall.args.path upcall.args.open_owner_id
      = ⟨0, some st, []⟩)
    (hN1 : 1 ≤ N) (hN : N ≤ env.NFS41_MAX_SYMLINK_DEPTH)
    (hsig : ∀ k, k < N → (env.nfs41_lookup k).status = ERROR_REPARSE)
    (hfetch : ∀ k, k < N → (env.nfs41_symlink_target k).status = 0)
    (hlast : (env.nfs41_lookup N).status = s)
    (hs : s ≠ ERROR_REPARSE) :
    (handle_open env upcall).status = NO_ERROR ∧
    (s ≠ 0 → (handle_open env upcall).status ≠ s) ∧
    (handle_open env upcall).upcall.last_error = ERROR_REPARSE ∧
    (handle_open env upcall).upcall.args.symlink_embedded = true ∧
    (handle_open env upcall).upcall.args.symlink
      = (env.nfs41_symlink_target (N - 1)).target := by
  have h0 := hsig 0 (by omega)
  have hstop : (env.nfs41_lookup N).status ≠ ERROR_REPARSE := by rw [hlast]; exact hs
  obtain ⟨st1, tr1, hres, hpath⟩ := reparse_loop_resolved env (N - 1) 0
    (state_after_lookup env upcall st) [Event.nfs41_lookup st.path] N (by omega) hN
    (fun k _ hk => hsig k hk) hstop (fun k _ hk => hfetch k hk)
  rw [handle_open_reparse_branch env upcall st hc h0, hres]
  refine ⟨rfl, ?_, rfl, rfl, hpath⟩
  intro hne heq
  exact hne (by rw [← heq]; rfl)

/-- Witness of C19: two lookups signal a reparse and the third fails with
ERROR_ACCESS_DENIED; the open still returns NO_ERROR with the reparse
signalled. -/
theorem handle_open_reparse_discards_last_status_witness :
    (handle_open (sample_chain_env_last 2 ERROR_ACCESS_DENIED)
      (sample_upcall FILE_READ_DATA 0 FILE_OPEN)).status = NO_ERROR ∧
    (((ERROR_ACCESS_DENIED : Nat) : Int) ≠ 0 →
      (handle_open (sample_chain_env_last 2 ERROR_ACCESS_DENIED)
        (sample_upcall FILE_READ_DATA 0 FILE_OPEN)).status ≠ ERROR_ACCESS_DENIED) ∧
    (handle_open (sample_chain_env_last 2 ERROR_ACCESS_DENIED)
      (sample_upcall FILE_READ_DATA 0 FILE_OPEN)).upcall.last_error = ERROR_REPARSE ∧
    (handle_open (sample_chain_env_last 2 ERROR_ACCESS_DENIED)
      (sample_upcall FILE_READ_DATA 0 FILE_OPEN)).upcall.args.symlink_embedded = true ∧
    (handle_open (sample_chain_env_last 2 ERROR_ACCESS_DENIED)
      (sample_upcall FILE_READ_DATA 0 FILE_OPEN)).upcall.args.symlink
      = ((sample_chain_env_last 2 ERROR_ACCESS_DENIED).nfs41_symlink_target (2 - 1)).target :=
  handle_open_reparse_discards_last_status (sample_chain_env_last 2 ERROR_ACCESS_DENIED)
    (sample_upcall FILE_READ_DATA 0 FILE_OPEN) sample_built_state 2 ERROR_ACCESS_DENIED
    rfl (by decide) (by decide) (by decide) (by decide) (by decide) (by decide)

/-! ## Hand-off and release -/

/-- The resolver leaves last_error as it was or sets it to
ERROR_FILE_NOT_FOUND. -/
theorem map_disposition_last_error (disposition : Nat) (in_status : Int)
    (create last_error : Nat) :
    (map_disposition_2_nfsopen disposition in_status create last_error).last_error
      = last_error ∨
    (map_disposition_2_nfsopen disposition in_status create last_error).last_error
      = ERROR_FILE_NOT_FOUND := by
  unfold map_disposition_2_nfsopen
  split_ifs <;> simp

/-- The create-or-open branch leaves last_error as it was or sets it to
ERROR_FILE_NOT_FOUND. -/
theorem handle_open_create_or_open_last_error (env : Env) (upcall : nfs41_upcall)
    (state : nfs41_open_state) (status : Int) (trace : List Event) :
    (handle_open_create_or_open env upcall state status trace).upcall.last_error
      = upcall.last_error ∨
    (handle_open_create_or_open env upcall state status trace).upcall.last_error
      = ERROR_FILE_NOT_FOUND := by
  unfold handle_open_create_or_open
  simp only []
  split_ifs <;> exact map_disposition_last_error _ _ _ _

/-- Lines 325-390 leave last_error as it was or set it to
ERROR_FILE_NOT_FOUND. -/
theorem handle_open_dispatch_last_error (env : Env) (upcall : nfs41_upcall)
    (state : nfs41_open_state) (info : nfs41_file_info) (status : Int)
    (trace : List Event) :
    (handle_open_dispatch env upcall state info status trace).upcall.last_error
      = upcall.last_error ∨
    (handle_open_dispatch env upcall state info status trace).upcall.last_error
      = ERROR_FILE_NOT_FOUND := by
  unfold handle_open_dispatch
  simp only []
  split_ifs
  · exact map_disposition_last_error _ _ _ _
  · exact map_disposition_last_error _ _ _ _
  · exact Or.inl rfl
  · exact Or.inl rfl
  · exact handle_open_create_or_open_last_error _ _ _ _ _

/-- The type check and what follows leave last_error as it was or set it to
ERROR_FILE_NOT_FOUND, unless the open ends at the type check with the target
fetch of a symlink. -/
theorem handle_open_typed_last_error (env : Env) (upcall : nfs41_upcall)
    (state : nfs41_open_state) (l : LookupAnswer) (trace : List Event) :
    ((handle_open_typed env upcall state l trace).upcall.last_error
        = upcall.last_error ∨
      (handle_open_typed env upcall state l trace).upcall.last_error
        = ERROR_FILE_NOT_FOUND) ∨
    (handle_open_typed env upcall state l trace).trace
      = trace ++ [Event.nfs41_symlink_target, Event.free] := by
  unfold handle_open_typed
  simp only []
  split_ifs
  · exact Or.inl (Or.inl rfl)
  · exact Or.inl (handle_open_dispatch_last_error _ _ _ _ _ _)
  · exact Or.inl (handle_open_dispatch_last_error _ _ _ _ _ _)
  · exact Or.inl (handle_open_dispatch_last_error _ _ _ _ _ _)
  · exact Or.inl (handle_open_dispatch_last_error _ _ _ _ _ _)
  · right; simp [out_free_state]
  · exact Or.inl (handle_open_dispatch_last_error _ _ _ _ _ _)
  · exact Or.inl (Or.inl rfl)
  · exact Or.inl (handle_open_dispatch_last_error _ _ _ _ _ _)

/-- C18: once the open state is built, `handle_open` hands it off only when
it returns NO_ERROR and has not signalled a reparse in this call (last_error
is as it was on entry or ERROR_FILE_NOT_FOUND); on both reparse paths that
return NO_ERROR (the first lookup signalled a reparse and the chain
resolved; or the entry is a symlink opened without FILE_OPEN_REPARSE_POINT
whose target was fetched) the state is released and `args.state` is left as
it was, so status 0 does not imply a handle; and on every path the state is
either released exactly once or handed off, never both. -/
theorem handle_open_attach_or_release (env : Env) (upcall : nfs41_upcall)
    (st : nfs41_open_state)
    (hc : create_open_state env upcall.args.path upcall.args.open_owner_id
      = ⟨0, some st, []⟩) :
    (Event.attach ∈ (handle_open env upcall).trace →
      (handle_open env upcall).status = NO_ERROR ∧
      ((handle_open env upcall).upcall.last_error = upcall.last_error ∨
        (handle_open env upcall).upcall.last_error = ERROR_FILE_NOT_FOUND) ∧
      (upcall.last_error ≠ ERROR_REPARSE →
        (handle_open env upcall).upcall.last_error ≠ ERROR_REPARSE)) ∧
    ((env.nfs41_lookup 0).status = ERROR_REPARSE →
      (handle_open env upcall).status = NO_ERROR →
      (handle_open env upcall).upcall.last_error = ERROR_REPARSE ∧
      (handle_open env upcall).upcall.args.symlink_embedded = true ∧
      count_free (handle_open env upcall).trace = 1 ∧
      Event.attach ∉ (handle_open env upcall).trace ∧
      (handle_open env upcall).upcall.args.state = upcall.args.state) ∧
    ((env.nfs41_lookup 0).status = NO_ERROR →
      (env.nfs41_lookup 0).info.type = NF4LNK →
      upcall.args.create_opts &&& FILE_OPEN_REPARSE_POINT = 0 →
      (env.nfs41_symlink_target 0).status = 0 →
      (handle_open env upcall).status = NO_ERROR ∧
      (handle_open env upcall).upcall.last_error = ERROR_REPARSE ∧
      (handle_open env upcall).upcall.args.symlink_embedded = false ∧
      (handle_open env upcall).upcall.args.symlink = (env.nfs41_symlink_target 0).target ∧
      count_free (handle_open env upcall).trace = 1 ∧
      Event.attach ∉ (handle_open env upcall).trace ∧
      (handle_open env upcall).upcall.args.state = upcall.args.state) ∧
    ((count_free (handle_open env upcall).trace = 1 ∧
        Event.attach ∉ (handle_open env upcall).trace) ∨
      (count_free (handle_open env upcall).trace = 0 ∧
        (handle_open env upcall).trace.count Event.attach = 1)) := by
  have hb : (create_open_state env upcall.args.path upcall.args.open_owner_id).state
      ≠ none := by rw [hc]; simp
  have hex := (handle_open_exits env upcall).2 hb
  refine ⟨?_, ?_, ?_, ?_⟩
  · intro ha
    have hstatus : (handle_open env upcall).status = NO_ERROR := by
      rcases hex with ⟨_, h0, _⟩ | ⟨_, _, h0, _⟩
      · exact absurd ha (List.count_eq_zero.mp h0)
      · exact h0
    have hle : (handle_open env upcall).upcall.last_error = upcall.last_error ∨
        (handle_open env upcall).upcall.last_error = ERROR_FILE_NOT_FOUND := by
      by_cases h0 : (env.nfs41_lookup 0).status = ERROR_REPARSE
      · exfalso
        rw [handle_open_reparse_branch env upcall st hc h0] at ha
        obtain ⟨ex, hex1, _, _, hatt⟩ := reparse_loop_trace env _ 0
          (state_after_lookup env upcall st) [Event.nfs41_lookup st.path] rfl
        have hnot : Event.attach ∉ ex := List.count_eq_zero.mp hatt
        revert hex1 ha
        cases reparse_loop env 0 (state_after_lookup env upcall st)
            [Event.nfs41_lookup st.path] with
        | failed s tr =>
          intro ha hex1
          simp only [ReparseOutcome.trace] at hex1
          subst hex1
          simp [out_free_state, hnot] at ha
        | resolved s tr =>
          intro ha hex1
          simp only [ReparseOutcome.trace] at hex1
          subst hex1
          simp [out_free_state, hnot] at ha
      · rw [handle_open_after_lookup env upcall st hc h0] at ha ⊢
        rcases handle_open_typed_last_error env upcall (state_after_lookup env upcall st)
          (env.nfs41_lookup 0) [Event.nfs41_lookup st.path] with h | h
        · exact h
        · rw [h] at ha
          simp at ha
    refine ⟨hstatus, hle, ?_⟩
    intro hne
    rcases hle with h | h
    · rw [h]; exact hne
    · rw [h]; decide
  · intro h0 hs
    rw [handle_open_reparse_branch env upcall st hc h0] at hs ⊢
    obtain ⟨ex, hex1, _, hfree, hatt⟩ := reparse_loop_trace env _ 0
      (state_after_lookup env upcall st) [Event.nfs41_lookup st.path] rfl
    have hnot : Event.attach ∉ ex := List.count_eq_zero.mp hatt
    have hfail := reparse_loop_failed_ne_zero env _ 0
      (state_after_lookup env upcall st) [Event.nfs41_lookup st.path] rfl
    revert hex1 hs hfail
    cases reparse_loop env 0 (state_after_lookup env upcall st)
        [Event.nfs41_lookup st.path] with
    | failed s tr =>
      intro hs hex1 hfail
      exact absurd hs (hfail s tr rfl)
    | resolved s tr =>
      intro hs hex1 _
      simp only [ReparseOutcome.trace] at hex1
      subst hex1
      refine ⟨rfl, rfl, ?_, ?_, rfl⟩
      · simp [out_free_state, count_free, List.count_append, List.count_cons, hfree]
      · simp [out_free_state, hnot]
  · intro hl ht hopt htarget
    have hr : (env.nfs41_lookup 0).status ≠ ERROR_REPARSE := by rw [hl]; decide
    rw [handle_open_after_lookup env upcall st hc hr,
      handle_open_typed_symlink_target env upcall _ _ _ hl ht hopt]
    refine ⟨?_, rfl, rfl, rfl, ?_, ?_, rfl⟩
    · simp [out_free_state, htarget, NO_ERROR]
    · simp [out_free_state, count_free, List.count_cons]
    · simp [out_free_state]
  · rcases hex with ⟨h1, h0, _⟩ | ⟨h0, h1, _⟩
    · exact Or.inl ⟨h1, List.count_eq_zero.mp h0⟩
    · exact Or.inr ⟨h0, h1⟩

/-- Witness of C18: a symlink opened without FILE_OPEN_REPARSE_POINT whose
target is fetched: status 0, reparse signalled, state released, no handle. -/
theorem handle_open_attach_or_release_witness :
    (handle_open (sample_symlink_env 0) (sample_upcall FILE_READ_DATA 0 FILE_OPEN)).status
      = NO_ERROR ∧
    (handle_open (sample_symlink_env 0)
      (sample_upcall FILE_READ_DATA 0 FILE_OPEN)).upcall.last_error = ERROR_REPARSE ∧
    (handle_open (sample_symlink_env 0)
      (sample_upcall FILE_READ_DATA 0 FILE_OPEN)).upcall.args.symlink_embedded = false ∧
    (handle_open (sample_symlink_env 0)
      (sample_upcall FILE_READ_DATA 0 FILE_OPEN)).upcall.args.symlink
      = ((sample_symlink_env 0).nfs41_symlink_target 0).target ∧
    count_free (handle_open (sample_symlink_env 0)
      (sample_upcall FILE_READ_DATA 0 FILE_OPEN)).trace = 1 ∧
    Event.attach ∉ (handle_open (sample_symlink_env 0)
      (sample_upcall FILE_READ_DATA 0 FILE_OPEN)).trace ∧
    (handle_open (sample_symlink_env 0)
      (sample_upcall FILE_READ_DATA 0 FILE_OPEN)).upcall.args.state
      = (sample_upcall FILE_READ_DATA 0 FILE_OPEN).args.state :=
  (handle_open_attach_or_release (sample_symlink_env 0)
    (sample_upcall FILE_READ_DATA 0 FILE_OPEN) sample_built_state rfl).2.2.1
    (by decide) (by decide) (by decide) (by decide)

/-! ## The status the resolver receives -/

/-- C20: `handle_open` reaches lines 325-390, where the resolver is called
with the status of the lookup, only when that status is NO_ERROR or
ERROR_FILE_NOT_FOUND: every other status ends the open at the type check
(or, for ERROR_REPARSE, in the reparse branch). ERROR_FILE_NOT_FOUND and
NFS4ERR_NOENT are the same number, so for these two statuses the test
`== NFS4ERR_NOENT` of the not-found branches and the test `!= 0` of the
CREATE branch agree, and the resolver takes the not-found row exactly when
the lookup did not find the entry. For another status, such as
ERROR_ACCESS_DENIED, the two tests would disagree. -/
theorem handle_open_resolver_status (env : Env) (upcall : nfs41_upcall) :
    ERROR_FILE_NOT_FOUND = NFS4ERR_NOENT ∧
    (∀ (state : nfs41_open_state) (l : LookupAnswer) (trace : List Event),
      l.status ≠ NO_ERROR → l.status ≠ ERROR_FILE_NOT_FOUND →
      handle_open_typed env upcall state l trace = out_free_state l.status upcall trace) ∧
    (∀ st, create_open_state env upcall.args.path upcall.args.open_owner_id
        = ⟨0, some st, []⟩ →
      (env.nfs41_lookup 0).status ≠ ERROR_REPARSE →
      (env.nfs41_lookup 0).status ≠ NO_ERROR →
      (env.nfs41_lookup 0).status ≠ ERROR_FILE_NOT_FOUND →
      handle_open env upcall =
        out_free_state (env.nfs41_lookup 0).status upcall [Event.nfs41_lookup st.path]) ∧
    (∀ st, create_open_state env upcall.args.path upcall.args.open_owner_id
        = ⟨0, some st, []⟩ →
      (env.nfs41_lookup 0).status = ERROR_FILE_NOT_FOUND →
      handle_open env upcall =
        handle_open_dispatch env upcall (state_after_lookup env upcall st)
          (env.nfs41_lookup 0).info NFS4ERR_NOENT [Event.nfs41_lookup st.path]) ∧
    (∀ (disposition : Nat) (in_status : Int) (create last_error : Nat),
      in_status = NO_ERROR ∨ in_status = ERROR_FILE_NOT_FOUND →
      (in_status = NFS4ERR_NOENT ↔ in_status ≠ 0) ∧
      map_disposition_2_nfsopen disposition in_status create last_error =
        map_disposition_2_nfsopen disposition
          (if in_status = 0 then 0 else NFS4ERR_NOENT) create last_error) ∧
    ((map_disposition_2_nfsopen FILE_CREATE ERROR_ACCESS_DENIED 0 0).create = OPEN4_CREATE ∧
      (map_disposition_2_nfsopen FILE_OPEN_IF ERROR_ACCESS_DENIED 0 0).create
        = OPEN4_NOCREATE) := by
  refine ⟨rfl, ?_, ?_, ?_, ?_, ?_⟩
  · intro state l trace h1 h2
    exact handle_open_typed_lookup_error env upcall state l trace h1 h2
  · intro st hc hr h1 h2
    rw [handle_open_after_lookup env upcall st hc hr,
      handle_open_typed_lookup_error env upcall _ _ _ h1 h2]
  · intro st hc hl
    have hr : (env.nfs41_lookup 0).status ≠ ERROR_REPARSE := by rw [hl]; decide
    rw [handle_open_after_lookup env upcall st hc hr,
      handle_open_typed_not_found env upcall _ _ _ hl, hl]
    rfl
  · intro disposition in_status create last_error hin
    rcases hin with h | h
    · subst h
      exact ⟨by decide, rfl⟩
    · subst h
      exact ⟨by decide, rfl⟩
  · exact ⟨rfl, rfl⟩

/-- Witness of C20: a lookup that fails with ERROR_ACCESS_DENIED ends the
open at the type check, before the resolver. -/
theorem handle_open_resolver_status_witness :
    handle_open (sample_env ERROR_ACCESS_DENIED NF4REG ⟨0, 0, 0⟩)
        (sample_upcall FILE_READ_DATA 0 FILE_CREATE) =
      out_free_state
        ((sample_env ERROR_ACCESS_DENIED NF4REG ⟨0, 0, 0⟩).nfs41_lookup 0).status
        (sample_upcall FILE_READ_DATA 0 FILE_CREATE)
        [Event.nfs41_lookup sample_built_state.path] :=
  (handle_open_resolver_status (sample_env ERROR_ACCESS_DENIED NF4REG ⟨0, 0, 0⟩)
    (sample_upcall FILE_READ_DATA 0 FILE_CREATE)).2.2.1 sample_built_state rfl
    (by decide) (by decide) (by decide)

/-! ## The reply codec -/

/-- A field that fits is written: status 0, the space shrinks by its size. -/
theorem write_field_fits (r : MarshallResult) (size : Nat) (field : ReplyField)
    (h : size ≤ r.length) :
    write_field r size field = ⟨0, r.length - size, r.written ++ [field]⟩ := by
  have hlt : ¬ r.length < size := by omega
  simp [write_field, safe_write, hlt]

/-- A field that does not fit is not written: ERROR_BUFFER_OVERFLOW. -/
theorem write_field_overflow (r : MarshallResult) (size : Nat) (field : ReplyField)
    (h : r.length < size) :
    write_field r size field = ⟨ERROR_BUFFER_OVERFLOW, r.length, r.written⟩ := by
  simp [write_field, safe_write, h, ERROR_BUFFER_OVERFLOW]

/-- The status of a field write is 0 or ERROR_BUFFER_OVERFLOW, and the write
adds at most the field. -/
theorem write_field_cases (r : MarshallResult) (size : Nat) (field : ReplyField) :
    write_field r size field = ⟨0, r.length - size, r.written ++ [field]⟩ ∨
    write_field r size field = ⟨ERROR_BUFFER_OVERFLOW, r.length, r.written⟩ := by
  by_cases h : size ≤ r.length
  · exact Or.inl (write_field_fits r size field h)
  · exact Or.inr (write_field_overflow r size field (by omega))

/-- When no reparse is signalled, `marshall_open` is the five writes of the
fixed fields. -/
theorem marshall_open_no_reparse (sizes : ReplySizes)
    (convert : List Nat → Nat → Nat → Nat) (length : Nat) (upcall : nfs41_upcall)
    (h : upcall.last_error ≠ ERROR_REPARSE) :
    marshall_open sizes convert length upcall =
      (let r1 := write_field ⟨0, length, []⟩ sizes.basic_info
          (.basic_info upcall.args.basic_info)
       if r1.status ≠ 0 then r1 else
       let r2 := write_field r1 sizes.std_info (.std_info upcall.args.std_info)
       if r2.status ≠ 0 then r2 else
       let r3 := write_field r2 sizes.state (.state upcall.args.state)
       if r3.status ≠ 0 then r3 else
       let r4 := write_field r3 sizes.mode (.mode upcall.args.mode)
       if r4.status ≠ 0 then r4 else
       write_field r4 sizes.changeattr (.changeattr upcall.args.changeattr)) := by
  unfold marshall_open
  simp only [if_neg h]
  split_ifs <;> rfl

/-- When a reparse is signalled and the five fixed fields, the embedded flag
and the 16-bit length fit, `marshall_open` writes them and then compares the
space left with the length computed in 16 bits. -/
theorem marshall_open_reparse (sizes : ReplySizes)
    (convert : List Nat → Nat → Nat → Nat) (length : Nat) (upcall : nfs41_upcall)
    (hre : upcall.last_error = ERROR_REPARSE)
    (hfit : sizes.basic_info + sizes.std_info + sizes.state + sizes.mode
      + sizes.changeattr + 1 + 2 ≤ length) :
    marshall_open sizes convert length upcall =
      if length - (sizes.basic_info + sizes.std_info + sizes.state + sizes.mode
          + sizes.changeattr + 1 + 2) ≤ ((upcall.args.symlink.len + 1) * 2) % 2 ^ 16 then
        ⟨ERROR_BUFFER_OVERFLOW,
          length - (sizes.basic_info + sizes.std_info + sizes.state + sizes.mode
            + sizes.changeattr + 1 + 2),
          [.basic_info upcall.args.basic_info, .std_info upcall.args.std_info,
            .state upcall.args.state, .mode upcall.args.mode,
            .changeattr upcall.args.changeattr,
            .symlink_embedded upcall.args.symlink_embedded,
            .len (((upcall.args.symlink.len + 1) * 2) % 2 ^ 16)]⟩
      else
        ⟨if convert upcall.args.symlink.path upcall.args.symlink.len
            (((upcall.args.symlink.len + 1) * 2) % 2 ^ 16 / 2) = 0
          then ERROR_BUFFER_OVERFLOW else 0,
          length - (sizes.basic_info + sizes.std_info + sizes.state + sizes.mode
            + sizes.changeattr + 1 + 2),
          [.basic_info upcall.args.basic_info, .std_info upcall.args.std_info,
            .state upcall.args.state, .mode upcall.args.mode,
            .changeattr upcall.args.changeattr,
            .symlink_embedded upcall.args.symlink_embedded,
            .len (((upcall.args.symlink.len + 1) * 2) % 2 ^ 16),
            .symlink upcall.args.symlink.path upcall.args.symlink.len
              (((upcall.args.symlink.len + 1) * 2) % 2 ^ 16 / 2)]⟩ := by
  have hrem : length - sizes.basic_info - sizes.std_info - sizes.state - sizes.mode
      - sizes.changeattr - 1 - 2
      = length - (sizes.basic_info + sizes.std_info + sizes.state + sizes.mode
        + sizes.changeattr + 1 + 2) := by omega
  unfold marshall_open
  simp only [if_pos hre]
  rw [write_field_fits _ _ _ (show sizes.basic_info ≤ length by omega)]
  simp only [ne_eq, not_true_eq_false, if_false]
  rw [write_field_fits _ _ _ (show sizes.std_info ≤ length - sizes.basic_info by omega)]
  simp only [ne_eq, not_true_eq_false, if_false]
  rw [write_field_fits _ _ _
    (show sizes.state ≤ length - sizes.basic_info - sizes.std_info by omega)]
  simp only [ne_eq, not_true_eq_false, if_false]
  rw [write_field_fits _ _ _
    (show sizes.mode ≤ length - sizes.basic_info - sizes.std_info - sizes.state by omega)]
  simp only [ne_eq, not_true_eq_false, if_false]
  rw [write_field_fits _ _ _
    (show sizes.changeattr ≤ length - sizes.basic_info - sizes.std_info - sizes.state
      - sizes.mode by omega)]
  simp only [ne_eq, not_true_eq_false, if_false]
  rw [write_field_fits _ _ _
    (show 1 ≤ length - sizes.basic_info - sizes.std_info - sizes.state
      - sizes.mode - sizes.changeattr by omega)]
  simp only [ne_eq, not_true_eq_false, if_false]
  rw [write_field_fits _ _ _
    (show 2 ≤ length - sizes.basic_info - sizes.std_info - sizes.state
      - sizes.mode - sizes.changeattr - 1 by omega)]
  simp only [ne_eq, not_true_eq_false, if_false, hrem]
  split_ifs <;> simp

/-- C13: when the reply carries a reparse signal and the five fixed fields,
the embedded flag and the 16-bit length have been written, `marshall_open`
returns ERROR_BUFFER_OVERFLOW, without converting the target, for every
destination whose remaining space is smaller than (symlink.len + 1) * 2
bytes (a size that fits 16 bits, as that of every path does); when no
reparse is signalled it writes at most the five fixed fields, all five when
they fit, and its result does not depend on the symlink. -/
theorem marshall_open_overflow (sizes : ReplySizes)
    (convert : List Nat → Nat → Nat → Nat) (length : Nat) (upcall : nfs41_upcall) :
    (upcall.last_error = ERROR_REPARSE →
      sizes.basic_info + sizes.std_info + sizes.state + sizes.mode + sizes.changeattr
        + 1 + 2 ≤ length →
      (upcall.args.symlink.len + 1) * 2 < 2 ^ 16 →
      length - (sizes.basic_info + sizes.std_info + sizes.state + sizes.mode
        + sizes.changeattr + 1 + 2) < (upcall.args.symlink.len + 1) * 2 →
      (marshall_open sizes convert length upcall).status = ERROR_BUFFER_OVERFLOW ∧
      (marshall_open sizes convert length upcall).written =
        [.basic_info upcall.args.basic_info, .std_info upcall.args.std_info,
          .state upcall.args.state, .mode upcall.args.mode,
          .changeattr upcall.args.changeattr,
          .symlink_embedded upcall.args.symlink_embedded,
          .len ((upcall.args.symlink.len + 1) * 2)]) ∧
    (upcall.last_error ≠ ERROR_REPARSE →
      (∀ symlink embedded,
        marshall_open sizes convert length
          { upcall with args := { upcall.args with
            symlink := symlink, symlink_embedded := embedded } }
        = marshall_open sizes convert length upcall) ∧
      (marshall_open sizes convert length upcall).written <+:
        [.basic_info upcall.args.basic_info, .std_info upcall.args.std_info,
          .state upcall.args.state, .mode upcall.args.mode,
          .changeattr upcall.args.changeattr] ∧
      (sizes.basic_info + sizes.std_info + sizes.state + sizes.mode + sizes.changeattr
          ≤ length →
        (marshall_open sizes convert length upcall).status = 0 ∧
        (marshall_open sizes convert length upcall).written =
          [.basic_info upcall.args.basic_info, .std_info upcall.args.std_info,
            .state upcall.args.state, .mode upcall.args.mode,
            .changeattr upcall.args.changeattr])) := by
  constructor
  · intro hre hfit hlen hsmall
    have hmod : ((upcall.args.symlink.len + 1) * 2) % 2 ^ 16
        = (upcall.args.symlink.len + 1) * 2 := Nat.mod_eq_of_lt hlen
    rw [marshall_open_reparse sizes convert length upcall hre hfit, hmod,
      if_pos (Nat.le_of_lt hsmall)]
    exact ⟨rfl, rfl⟩
  · intro hre
    refine ⟨?_, ?_, ?_⟩
    · intro symlink embedded
      rw [marshall_open_no_reparse sizes convert length upcall hre]
      exact marshall_open_no_reparse sizes convert length
        { upcall with args := { upcall.args with
          symlink := symlink, symlink_embedded := embedded } } hre
    · rw [marshall_open_no_reparse sizes convert length upcall hre]
      simp only []
      rcases write_field_cases ⟨0, length, []⟩ sizes.basic_info
        (.basic_info upcall.args.basic_info) with h1 | h1
      · rw [h1]
        simp only [ne_eq, not_true_eq_false, if_false]
        rcases write_field_cases ⟨0, length - sizes.basic_info,
          [] ++ [.basic_info upcall.args.basic_info]⟩ sizes.std_info
          (.std_info upcall.args.std_info) with h2 | h2
        · rw [h2]
          simp only [ne_eq, not_true_eq_false, if_false]
          rcases write_field_cases ⟨0, length - sizes.basic_info - sizes.std_info,
            [] ++ [.basic_info upcall.args.basic_info] ++ [.std_info upcall.args.std_info]⟩
            sizes.state (.state upcall.args.state) with h3 | h3
          · rw [h3]
            simp only [ne_eq, not_true_eq_false, if_false]
            rcases write_field_cases
              ⟨0, length - sizes.basic_info - sizes.std_info - sizes.state,
                [] ++ [.basic_info upcall.args.basic_info] ++
                  [.std_info upcall.args.std_info] ++ [.state upcall.args.state]⟩
              sizes.mode (.mode upcall.args.mode) with h4 | h4
            · rw [h4]
              simp only [ne_eq, not_true_eq_false, if_false]
              rcases write_field_cases
                ⟨0, length - sizes.basic_info - sizes.std_info - sizes.state - sizes.mode,
                  [] ++ [.basic_info upcall.args.basic_info] ++
                    [.std_info upcall.args.std_info] ++ [.state upcall.args.state] ++
                    [.mode upcall.args.mode]⟩
                sizes.changeattr (.changeattr upcall.args.changeattr) with h5 | h5
              · rw [h5]; simp
              · rw [h5]; simp [List.prefix_iff_eq_take]
            · rw [h4]; simp [ERROR_BUFFER_OVERFLOW, List.prefix_iff_eq_take]
          · rw [h3]; simp [ERROR_BUFFER_OVERFLOW, List.prefix_iff_eq_take]
        · rw [h2]; simp [ERROR_BUFFER_OVERFLOW, List.prefix_iff_eq_take]
      · rw [h1]; simp [ERROR_BUFFER_OVERFLOW]
    · intro hfit
      rw [marshall_open_no_reparse sizes convert length upcall hre]
      simp only []
      rw [write_field_fits _ _ _ (show sizes.basic_info ≤ length by omega)]
      simp only [ne_eq, not_true_eq_false, if_false]
      rw [write_field_fits _ _ _ (show sizes.std_info ≤ length - sizes.basic_info by omega)]
      simp only [ne_eq, not_true_eq_false, if_false]
      rw [write_field_fits _ _ _
        (show sizes.state ≤ length - sizes.basic_info - sizes.std_info by omega)]
      simp only [ne_eq, not_true_eq_false, if_false]
      rw [write_field_fits _ _ _
        (show sizes.mode ≤ length - sizes.basic_info - sizes.std_info - sizes.state by omega)]
      simp only [ne_eq, not_true_eq_false, if_false]
      rw [write_field_fits _ _ _
        (show sizes.changeattr ≤ length - sizes.basic_info - sizes.std_info - sizes.state
          - sizes.mode by omega)]
      simp

/-- Witness of C13: a 4-byte target needs 10 bytes; 9 are left after the
fixed fields, the flag and the length. -/
theorem marshall_open_overflow_witness :
    (marshall_open sample_sizes sample_convert 96
      (sample_reply ERROR_REPARSE 4)).status = ERROR_BUFFER_OVERFLOW ∧
    (marshall_open sample_sizes sample_convert 96 (sample_reply ERROR_REPARSE 4)).written =
      [.basic_info (sample_reply ERROR_REPARSE 4).args.basic_info,
        .std_info (sample_reply ERROR_REPARSE 4).args.std_info,
        .state (sample_reply ERROR_REPARSE 4).args.state,
        .mode (sample_reply ERROR_REPARSE 4).args.mode,
        .changeattr (sample_reply ERROR_REPARSE 4).args.changeattr,
        .symlink_embedded (sample_reply ERROR_REPARSE 4).args.symlink_embedded,
        .len (((sample_reply ERROR_REPARSE 4).args.symlink.len + 1) * 2)] :=
  (marshall_open_overflow sample_sizes sample_convert 96 (sample_reply ERROR_REPARSE 4)).1
    (by decide) (by decide) (by decide) (by decide)

/-! ## The exact fit -/

/-- C21: in `marshall_open` with a reparse signalled, once the five fixed
fields, the embedded flag and the length are written, a destination whose
remaining space is exactly the size of the target, (symlink.len + 1) * 2
computed in 16 bits, is rejected with ERROR_BUFFER_OVERFLOW and the target
is not converted; the target is converted exactly when the remaining space
is strictly greater than that size; and where (symlink.len + 1) * 2 fits 16
bits, a remaining space of exactly (symlink.len + 1) * 2 bytes is
rejected. -/
theorem marshall_open_exact_fit (sizes : ReplySizes)
    (convert : List Nat → Nat → Nat → Nat) (length : Nat) (upcall : nfs41_upcall)
    (hre : upcall.last_error = ERROR_REPARSE)
    (hfit : sizes.basic_info + sizes.std_info + sizes.state + sizes.mode
      + sizes.changeattr + 1 + 2 ≤ length) :
    (length - (sizes.basic_info + sizes.std_info + sizes.state + sizes.mode
        + sizes.changeattr + 1 + 2) = ((upcall.args.symlink.len + 1) * 2) % 2 ^ 16 →
      (marshall_open sizes convert length upcall).status = ERROR_BUFFER_OVERFLOW ∧
      (marshall_open sizes convert length upcall).written.any is_symlink_field = false) ∧
    ((marshall_open sizes convert length upcall).written.any is_symlink_field = true ↔
      ((upcall.args.symlink.len + 1) * 2) % 2 ^ 16 <
        length - (sizes.basic_info + sizes.std_info + sizes.state + sizes.mode
          + sizes.changeattr + 1 + 2)) ∧
    ((marshall_open sizes convert length upcall).status = 0 →
      ((upcall.args.symlink.len + 1) * 2) % 2 ^ 16 <
        length - (sizes.basic_info + sizes.std_info + sizes.state + sizes.mode
          + sizes.changeattr + 1 + 2)) ∧
    ((upcall.args.symlink.len + 1) * 2 < 2 ^ 16 →
      length - (sizes.basic_info + sizes.std_info + sizes.state + sizes.mode
        + sizes.changeattr + 1 + 2) = (upcall.args.symlink.len + 1) * 2 →
      (marshall_open sizes convert length upcall).status = ERROR_BUFFER_OVERFLOW ∧
      (marshall_open sizes convert length upcall).written.any is_symlink_field = false) := by
  have key := marshall_open_reparse sizes convert length upcall hre hfit
  have hexact : length - (sizes.basic_info + sizes.std_info + sizes.state + sizes.mode
        + sizes.changeattr + 1 + 2) = ((upcall.args.symlink.len + 1) * 2) % 2 ^ 16 →
      (marshall_open sizes convert length upcall).status = ERROR_BUFFER_OVERFLOW ∧
      (marshall_open sizes convert length upcall).written.any is_symlink_field = false := by
    intro heq
    rw [key, if_pos (Nat.le_of_eq heq)]
    exact ⟨rfl, by simp [is_symlink_field]⟩
  refine ⟨hexact, ?_, ?_, ?_⟩
  · by_cases hle : length - (sizes.basic_info + sizes.std_info + sizes.state + sizes.mode
        + sizes.changeattr + 1 + 2) ≤ ((upcall.args.symlink.len + 1) * 2) % 2 ^ 16
    · rw [key, if_pos hle]
      constructor
      · intro h
        simp [is_symlink_field] at h
      · intro h
        omega
    · rw [key, if_neg hle]
      constructor
      · intro _
        omega
      · intro _
        simp [is_symlink_field]
  · intro hs
    by_cases hle : length - (sizes.basic_info + sizes.std_info + sizes.state + sizes.mode
        + sizes.changeattr + 1 + 2) ≤ ((upcall.args.symlink.len + 1) * 2) % 2 ^ 16
    · rw [key, if_pos hle] at hs
      simp [ERROR_BUFFER_OVERFLOW] at hs
    · omega
  · intro hlen heq
    exact hexact (by rw [Nat.mod_eq_of_lt hlen]; exact heq)

/-- Witness of C21: a 4-byte target needs 10 bytes; exactly 10 are left after
the fixed fields, the flag and the length, and the reply is rejected. -/
theorem marshall_open_exact_fit_witness :
    (marshall_open sample_sizes sample_convert 97
      (sample_reply ERROR_REPARSE 4)).status = ERROR_BUFFER_OVERFLOW ∧
    (marshall_open sample_sizes sample_convert 97
      (sample_reply ERROR_REPARSE 4)).written.any is_symlink_field = false :=
  (marshall_open_exact_fit sample_sizes sample_convert 97 (sample_reply ERROR_REPARSE 4)
    (by decide) (by decide)).1 (by decide)

end Nfs41Open
